import Mathlib

/-! gomusic: service layer and HTTP middleware

A shallow embedding of `service/service.go` and `api/middleware.go`.

* Go strings are `String`; a Go `error` value is an `Option Error` (`none` is `nil`).
* A Go function returning `(v, err)` returns the pair `(v, err)`; on the error paths the
  source returns the zero value of `v`, which is kept here (`{}`/`""`/`nil`).
  A nil slice and an empty slice are both the empty list.
* `service.repo` is the interface `repository.Repository`; it is a record of functions over
  an abstract store state `σ`. Every method may change the store, also when it fails.
* The packages `helper` and `model` are imported by the two files; the functions of
  `helper` are the record `Helper`, the records of `model` carry the fields the two files use.
* Every call through `service.repo` and every call of a `helper` function is appended to a
  trace of events, so that "makes no store call" is a statement about the trace.
* A failed type assertion `x.(string)` is a run-time panic: `Outcome.panicked`.
-/

namespace Gomusic

/-! ## Errors -/

/-- Error values. The first two are the package variables of `service`, the next two the
variables `helper.NoTokenError` and `helper.InvalidTokenError` used by the middleware,
`audioNotAllowed` is the `fmt.Errorf` value built in `UserAudioMiddleware`, and `other`
is any error produced by a collaborator (store, hashing, token library). -/
inductive Error where
  | UserCredentialsAreInvalidError
  | InvalidUserError
  | NoTokenError
  | InvalidTokenError
  | audioNotAllowed
  | other (msg : String)
  deriving DecidableEq, Repr

/-! ## Records of package `model` -/

structure Track where
  TrackID : String := ""
  TrackTitle : String := ""
  ArtistID : String := ""
  GenreID : String := ""
  UploadedByID : String := ""
  deriving DecidableEq, Repr

structure Artist where
  ArtistID : String := ""
  ArtistName : String := ""
  deriving DecidableEq, Repr

structure User where
  UserID : String := ""
  Email : String := ""
  Username : String := ""
  Password : String := ""
  Role : String := ""
  deriving DecidableEq, Repr

structure Playlist where
  PlaylistID : String := ""
  PlaylistTitle : String := ""
  CreatedByID : String := ""
  deriving DecidableEq, Repr

/-- Row of a playlist's track membership, as returned by `GetPlaylistTracks`. -/
structure PlaylistTrack where
  PlaylistID : String := ""
  TrackID : String := ""
  deriving DecidableEq, Repr

/-- Row of a user's track list, as returned by `GetUserTrackList`. -/
structure UserTrack where
  UserID : String := ""
  TrackID : String := ""
  deriving DecidableEq, Repr

/-- Row of a user's playlist list, as returned by `GetUserPlaylists`. -/
structure UserPlaylist where
  UserID : String := ""
  PlaylistID : String := ""
  deriving DecidableEq, Repr

structure TrackResponse where
  ID : String := ""
  Title : String := ""
  Artist : String := ""
  deriving DecidableEq, Repr

structure PlaylistResponse where
  ID : String := ""
  Title : String := ""
  TrackList : List TrackResponse := []
  deriving DecidableEq, Repr

/-! ## Token claims -/

/-- A value of Go type `interface{}` found in a claims map. -/
inductive Value where
  | null
  | str (s : String)
  | num (n : Int)
  | bool (b : Bool)
  deriving DecidableEq, Repr

/-- The claims map returned by `helper.ParseToken`. -/
abbrev MapClaims := List (String × Value)

/-- Map indexing `claims[key]`: the zero value (nil) when the key is absent. -/
def MapClaims.get (claims : MapClaims) (key : String) : Value :=
  match claims.find? (fun kv => kv.1 == key) with
  | some kv => kv.2
  | none => Value.null

/-- The type assertion `v.(string)`: `none` is the run-time panic. -/
def Value.assertString : Value → Option String
  | Value.str s => some s
  | _ => none

/-- Result of a function that may stop in a run-time panic. -/
inductive Outcome (α : Type) where
  | returned (a : α)
  | panicked
  deriving DecidableEq, Repr

/-! ## Events -/

/-- The calls a service operation or a middleware makes to its collaborators. The
callbacks handed to `AddNewTrack` and `DeleteTrack` are not recorded. -/
inductive Call where
  | AddNewTrack (t : Track)
  | GetAllTracks
  | GetTrack (trackID : String)
  | UpdateTrack (t : Track)
  | DeleteTrack (trackID : String)
  | GetArtist (artistID : String)
  | AddNewUser (u : User)
  | GetUserByEmail (email : String)
  | AddRefreshToken (userID token : String)
  | UpdateRefreshToken (userID oldToken newToken : String)
  | DeleteRefreshToken (userID token : String)
  | GetUserTrackList (userID : String)
  | AddTracksToUserList (userID : String) (tracksID : List String)
  | DeleteTracksFromUserList (userID : String) (tracksID : List String)
  | GetAllPlaylists
  | GetUserPlaylists (userID : String)
  | GetPlaylist (playlistID : String)
  | GetPlaylistTracks (playlistID : String)
  | AddNewPlaylist (p : Playlist)
  | DeletePlaylist (playlistID : String)
  | AddTracksToPlaylist (playlistID : String) (trackList : List String)
  | DeleteTracksFromPlaylist (playlistID : String) (trackList : List String)
  | AddPlaylistsToUserList (userID : String) (playlistsID : List String)
  | DeletePlaylistsFromUserList (userID : String) (playlistsID : List String)
  deriving DecidableEq, Repr

/-- The store calls that write: everything but the `Get…` methods. -/
def Call.isMutating : Call → Bool
  | .GetAllTracks | .GetTrack _ | .GetArtist _ | .GetUserByEmail _ | .GetUserTrackList _
  | .GetAllPlaylists | .GetUserPlaylists _ | .GetPlaylist _ | .GetPlaylistTracks _ => false
  | _ => true

/-- A call of a function of package `helper`. -/
inductive HelperCall where
  | HashPassword (password : String)
  | CheckPasswordHash (password hash : String)
  | GenerateTokens (userID : String)
  | ParseToken (token : String)
  deriving DecidableEq, Repr

/-- One entry of the trace: a store call with the error it returned, or a helper call. -/
inductive Event where
  | repo (c : Call) (err : Option Error)
  | helper (c : HelperCall)
  deriving DecidableEq, Repr

/-! ## The computation type -/

/-- A computation over the store: result, store afterwards, events emitted. -/
def M (σ α : Type) : Type := σ → α × σ × List Event

namespace M

variable {σ α β : Type}

def ret (a : α) : M σ α := fun s => (a, s, [])

def bind (m : M σ α) (f : α → M σ β) : M σ β := fun s =>
  let r := m s
  let r2 := f r.1 r.2.1
  (r2.1, r2.2.1, r.2.2 ++ r2.2.2)

instance : Monad (M σ) where
  pure := ret
  bind := bind

end M

/-- A store method call: run it on the store and record it with its error. -/
def call {σ α : Type} (c : Call) (f : σ → (α × Option Error) × σ) : M σ (α × Option Error) :=
  fun s => let r := f s; (r.1, r.2, [Event.repo c r.1.2])

/-- A store method that returns only an error. -/
def callE {σ : Type} (c : Call) (f : σ → Option Error × σ) : M σ (Option Error) :=
  fun s => let r := f s; (r.1, r.2, [Event.repo c r.1])

/-- A helper call: record it and give its result. -/
def helperCall {σ α : Type} (c : HelperCall) (a : α) : M σ α :=
  fun s => (a, s, [Event.helper c])

/-! ## Collaborators -/

/-- The interface `repository.Repository`, with the methods `service.go` calls. `U` and `D`
are the callback types `helper.UploadTrackCallback` and `helper.DeleteTrackCallback`. -/
structure Repository (σ U D : Type) where
  AddNewTrack : Track → U → σ → (Track × Option Error) × σ
  GetAllTracks : σ → (List Track × Option Error) × σ
  GetTrack : String → σ → (Track × Option Error) × σ
  UpdateTrack : Track → σ → (Track × Option Error) × σ
  DeleteTrack : String → D → σ → Option Error × σ
  GetArtist : String → σ → (Artist × Option Error) × σ
  AddNewUser : User → σ → (User × Option Error) × σ
  GetUserByEmail : String → σ → (User × Option Error) × σ
  AddRefreshToken : String → String → σ → Option Error × σ
  UpdateRefreshToken : String → String → String → σ → Option Error × σ
  DeleteRefreshToken : String → String → σ → Option Error × σ
  GetUserTrackList : String → σ → (List UserTrack × Option Error) × σ
  AddTracksToUserList : String → List String → σ → Option Error × σ
  DeleteTracksFromUserList : String → List String → σ → Option Error × σ
  GetAllPlaylists : σ → (List Playlist × Option Error) × σ
  GetUserPlaylists : String → σ → (List UserPlaylist × Option Error) × σ
  GetPlaylist : String → σ → (Playlist × Option Error) × σ
  GetPlaylistTracks : String → σ → (List PlaylistTrack × Option Error) × σ
  AddNewPlaylist : Playlist → σ → (Playlist × Option Error) × σ
  DeletePlaylist : String → σ → Option Error × σ
  AddTracksToPlaylist : String → List String → σ → Option Error × σ
  DeleteTracksFromPlaylist : String → List String → σ → Option Error × σ
  AddPlaylistsToUserList : String → List String → σ → Option Error × σ
  DeletePlaylistsFromUserList : String → List String → σ → Option Error × σ

/-- The functions and the constant of package `helper` that the two files use. -/
structure Helper where
  HashPassword : String → String × Option Error
  CheckPasswordHash : String → String → Bool
  GenerateTokens : String → String × String × Option Error
  ParseToken : String → MapClaims × Option Error
  UserRole : String

/-! ## Package `service` -/

section Service

variable {σ U D : Type}

def AddNewTrack (repo : Repository σ U D) (title artistID genreID uploadedByID : String)
    (uploadTrack : U) : M σ (TrackResponse × Option Error) := do
  let newTrack : Track :=
    { TrackTitle := title, ArtistID := artistID, GenreID := genreID, UploadedByID := uploadedByID }
  let (dbTrack, err) ← call (.AddNewTrack newTrack) (repo.AddNewTrack newTrack uploadTrack)
  if err ≠ none then
    return ({}, err)
  let (trackArtist, err) ← call (.GetArtist dbTrack.ArtistID) (repo.GetArtist dbTrack.ArtistID)
  if err ≠ none then
    return ({}, err)
  let trackResponse : TrackResponse :=
    { ID := dbTrack.TrackID, Title := dbTrack.TrackTitle, Artist := trackArtist.ArtistName }
  return (trackResponse, none)

def GetAllTracks.loop (repo : Repository σ U D) :
    List Track → List TrackResponse → M σ (List TrackResponse × Option Error)
  | [], responseTracks => return (responseTracks, none)
  | dbTrack :: rest, responseTracks => do
    let (trackArtist, err) ← call (.GetArtist dbTrack.ArtistID) (repo.GetArtist dbTrack.ArtistID)
    if err ≠ none then
      return ([], err)
    let trackResponse : TrackResponse :=
      { ID := dbTrack.TrackID, Title := dbTrack.TrackTitle, Artist := trackArtist.ArtistName }
    GetAllTracks.loop repo rest (responseTracks ++ [trackResponse])

def GetAllTracks (repo : Repository σ U D) : M σ (List TrackResponse × Option Error) := do
  let (dbTracks, err) ← call .GetAllTracks repo.GetAllTracks
  if err ≠ none then
    return ([], err)
  let (responseTracks, err) ← GetAllTracks.loop repo dbTracks []
  if err ≠ none then
    return ([], err)
  return (responseTracks, none)

def GetTrackByID (repo : Repository σ U D) (trackID : String) :
    M σ (TrackResponse × Option Error) := do
  let (dbTrack, err) ← call (.GetTrack trackID) (repo.GetTrack trackID)
  if err ≠ none then
    return ({}, err)
  let (trackArtist, err) ← call (.GetArtist dbTrack.ArtistID) (repo.GetArtist dbTrack.ArtistID)
  if err ≠ none then
    return ({}, err)
  let trackResponse : TrackResponse :=
    { ID := dbTrack.TrackID, Title := dbTrack.TrackTitle, Artist := trackArtist.ArtistName }
  return (trackResponse, none)

def UpdateTrackByID (repo : Repository σ U D) (trackID title artistID genreID : String) :
    M σ (TrackResponse × Option Error) := do
  let updatedTrack : Track :=
    { TrackID := trackID, TrackTitle := title, ArtistID := artistID, GenreID := genreID }
  let (dbTrack, err) ← call (.UpdateTrack updatedTrack) (repo.UpdateTrack updatedTrack)
  if err ≠ none then
    return ({}, err)
  let (trackArtist, err) ← call (.GetArtist dbTrack.ArtistID) (repo.GetArtist dbTrack.ArtistID)
  if err ≠ none then
    return ({}, err)
  let trackResponse : TrackResponse :=
    { ID := dbTrack.TrackID, Title := dbTrack.TrackTitle, Artist := trackArtist.ArtistName }
  return (trackResponse, none)

def DeleteTrackByID (repo : Repository σ U D) (trackID : String) (deleteTrack : D) :
    M σ (Option Error) := do
  let err ← callE (.DeleteTrack trackID) (repo.DeleteTrack trackID deleteTrack)
  if err ≠ none then
    return err
  return none

def SignUp (h : Helper) (repo : Repository σ U D) (email username password : String) :
    M σ (Option Error) := do
  let (hashedPassword, err) ← helperCall (.HashPassword password) (h.HashPassword password)
  if err ≠ none then
    return err
  let newUser : User :=
    { Email := email, Username := username, Password := hashedPassword, Role := h.UserRole }
  let (_, err) ← call (.AddNewUser newUser) (repo.AddNewUser newUser)
  if err ≠ none then
    return err
  return none

def SignIn (h : Helper) (repo : Repository σ U D) (email password : String) :
    M σ (String × String × Option Error) := do
  let (user, err) ← call (.GetUserByEmail email) (repo.GetUserByEmail email)
  if err ≠ none then
    return ("", "", err)
  let ok ← helperCall (.CheckPasswordHash password user.Password)
    (h.CheckPasswordHash password user.Password)
  if ok then
    let (accessToken, refreshToken, err) ←
      helperCall (.GenerateTokens user.UserID) (h.GenerateTokens user.UserID)
    if err ≠ none then
      return ("", "", err)
    let err ← callE (.AddRefreshToken user.UserID refreshToken)
      (repo.AddRefreshToken user.UserID refreshToken)
    if err ≠ none then
      return ("", "", err)
    return (accessToken, refreshToken, none)
  return ("", "", none)

def RefreshToken (h : Helper) (repo : Repository σ U D) (token : String) :
    M σ (Outcome (String × String × Option Error)) := do
  let (tokenClaims, err) ← helperCall (.ParseToken token) (h.ParseToken token)
  if err ≠ none then
    return .returned ("", "", err)
  match (tokenClaims.get "userId").assertString with
  | none => return .panicked
  | some userID =>
    let (accessToken, refreshToken, err) ←
      helperCall (.GenerateTokens userID) (h.GenerateTokens userID)
    if err ≠ none then
      return .returned ("", "", err)
    let err ← callE (.UpdateRefreshToken userID token refreshToken)
      (repo.UpdateRefreshToken userID token refreshToken)
    if err ≠ none then
      return .returned ("", "", err)
    return .returned (accessToken, refreshToken, none)

def SignOut (h : Helper) (repo : Repository σ U D) (token : String) :
    M σ (Outcome (Option Error)) := do
  let (tokenClaims, err) ← helperCall (.ParseToken token) (h.ParseToken token)
  if err ≠ none then
    return .returned err
  match (tokenClaims.get "userId").assertString with
  | none => return .panicked
  | some userID =>
    let err ← callE (.DeleteRefreshToken userID token) (repo.DeleteRefreshToken userID token)
    if err ≠ none then
      return .returned err
    return .returned none

def GetUserTrackList.loop1 (repo : Repository σ U D) :
    List UserTrack → List Track → M σ (List Track × Option Error)
  | [], dbTracks => return (dbTracks, none)
  | userTrack :: rest, dbTracks => do
    let (dbTrack, err) ← call (.GetTrack userTrack.TrackID) (repo.GetTrack userTrack.TrackID)
    if err ≠ none then
      return ([], err)
    GetUserTrackList.loop1 repo rest (dbTracks ++ [dbTrack])

def GetUserTrackList.loop2 (repo : Repository σ U D) :
    List Track → List TrackResponse → M σ (List TrackResponse × Option Error)
  | [], responseTracks => return (responseTracks, none)
  | dbTrack :: rest, responseTracks => do
    let (trackArtist, err) ← call (.GetArtist dbTrack.ArtistID) (repo.GetArtist dbTrack.ArtistID)
    if err ≠ none then
      return ([], err)
    let trackResponse : TrackResponse :=
      { ID := dbTrack.TrackID, Title := dbTrack.TrackTitle, Artist := trackArtist.ArtistName }
    GetUserTrackList.loop2 repo rest (responseTracks ++ [trackResponse])

def GetUserTrackList (repo : Repository σ U D) (userID : String) :
    M σ (List TrackResponse × Option Error) := do
  let (userTracks, err) ← call (.GetUserTrackList userID) (repo.GetUserTrackList userID)
  if err ≠ none then
    return ([], err)
  let (dbTracks, err) ← GetUserTrackList.loop1 repo userTracks []
  if err ≠ none then
    return ([], err)
  let (responseTracks, err) ← GetUserTrackList.loop2 repo dbTracks []
  if err ≠ none then
    return ([], err)
  return (responseTracks, none)

def AddTracksToUserTrackList (repo : Repository σ U D) (userID : String)
    (tracksID : List String) : M σ (Option Error) := do
  let err ← callE (.AddTracksToUserList userID tracksID) (repo.AddTracksToUserList userID tracksID)
  if err ≠ none then
    return err
  return none

def DeleteTracksFromUserTrackList (repo : Repository σ U D) (userID : String)
    (tracksID : List String) : M σ (Option Error) := do
  let err ← callE (.DeleteTracksFromUserList userID tracksID)
    (repo.DeleteTracksFromUserList userID tracksID)
  if err ≠ none then
    return err
  return none

/-- The loop over a playlist's membership rows; it is written four times in the source
(`GetAllPlaylists`, `GetUserPlaylists`, `CreateNewPlaylist`, `GetPlaylistByID`) with the
same body. A `return` inside the loop is the error component of the result. -/
def playlistTracksLoop (repo : Repository σ U D) :
    List PlaylistTrack → List TrackResponse → M σ (List TrackResponse × Option Error)
  | [], playlistTracksResponse => return (playlistTracksResponse, none)
  | dbPlaylistTrack :: rest, playlistTracksResponse => do
    let (dbTrack, err) ←
      call (.GetTrack dbPlaylistTrack.TrackID) (repo.GetTrack dbPlaylistTrack.TrackID)
    if err ≠ none then
      return ([], err)
    let (trackArtist, err) ← call (.GetArtist dbTrack.ArtistID) (repo.GetArtist dbTrack.ArtistID)
    if err ≠ none then
      return ([], err)
    let trackResponse : TrackResponse :=
      { ID := dbTrack.TrackID, Title := dbTrack.TrackTitle, Artist := trackArtist.ArtistName }
    playlistTracksLoop repo rest (playlistTracksResponse ++ [trackResponse])

/-- The loop over playlists of `GetAllPlaylists` and the second loop of `GetUserPlaylists`. -/
def playlistsLoop (repo : Repository σ U D) :
    List Playlist → List PlaylistResponse → M σ (List PlaylistResponse × Option Error)
  | [], responsePlaylists => return (responsePlaylists, none)
  | dbPlaylist :: rest, responsePlaylists => do
    let (dbPlaylistTracks, err) ←
      call (.GetPlaylistTracks dbPlaylist.PlaylistID) (repo.GetPlaylistTracks dbPlaylist.PlaylistID)
    if err ≠ none then
      return ([], err)
    let (playlistTracksResponse, err) ← playlistTracksLoop repo dbPlaylistTracks []
    if err ≠ none then
      return ([], err)
    let playlistResponse : PlaylistResponse :=
      { ID := dbPlaylist.PlaylistID, Title := dbPlaylist.PlaylistTitle,
        TrackList := playlistTracksResponse }
    playlistsLoop repo rest (responsePlaylists ++ [playlistResponse])

def GetAllPlaylists (repo : Repository σ U D) : M σ (List PlaylistResponse × Option Error) := do
  let (dbPlaylists, err) ← call .GetAllPlaylists repo.GetAllPlaylists
  if err ≠ none then
    return ([], err)
  let (responsePlaylists, err) ← playlistsLoop repo dbPlaylists []
  if err ≠ none then
    return ([], err)
  return (responsePlaylists, none)

def GetUserPlaylists.loop1 (repo : Repository σ U D) :
    List UserPlaylist → List Playlist → M σ (List Playlist × Option Error)
  | [], dbPlaylists => return (dbPlaylists, none)
  | dbUserPlaylist :: rest, dbPlaylists => do
    let (dbPlaylist, err) ←
      call (.GetPlaylist dbUserPlaylist.PlaylistID) (repo.GetPlaylist dbUserPlaylist.PlaylistID)
    if err ≠ none then
      return ([], err)
    GetUserPlaylists.loop1 repo rest (dbPlaylists ++ [dbPlaylist])

def GetUserPlaylists (repo : Repository σ U D) (userID : String) :
    M σ (List PlaylistResponse × Option Error) := do
  let (dbUserPlaylists, err) ← call (.GetUserPlaylists userID) (repo.GetUserPlaylists userID)
  if err ≠ none then
    return ([], err)
  let (dbPlaylists, err) ← GetUserPlaylists.loop1 repo dbUserPlaylists []
  if err ≠ none then
    return ([], err)
  let (responsePlaylists, err) ← playlistsLoop repo dbPlaylists []
  if err ≠ none then
    return ([], err)
  return (responsePlaylists, none)

def CreateNewPlaylist (repo : Repository σ U D) (title createdByID : String)
    (trackList : List String) : M σ (PlaylistResponse × Option Error) := do
  let newPlaylist : Playlist := { PlaylistTitle := title, CreatedByID := createdByID }
  let (dbPlaylist, err) ← call (.AddNewPlaylist newPlaylist) (repo.AddNewPlaylist newPlaylist)
  if err ≠ none then
    return ({}, err)
  let err ← callE (.AddTracksToPlaylist dbPlaylist.PlaylistID trackList)
    (repo.AddTracksToPlaylist dbPlaylist.PlaylistID trackList)
  if err ≠ none then
    return ({}, err)
  let (dbPlaylistTracks, err) ←
    call (.GetPlaylistTracks dbPlaylist.PlaylistID) (repo.GetPlaylistTracks dbPlaylist.PlaylistID)
  if err ≠ none then
    return ({}, err)
  let (playlistTracksResponse, err) ← playlistTracksLoop repo dbPlaylistTracks []
  if err ≠ none then
    return ({}, err)
  let playlistResponse : PlaylistResponse :=
    { ID := dbPlaylist.PlaylistID, Title := dbPlaylist.PlaylistTitle,
      TrackList := playlistTracksResponse }
  return (playlistResponse, none)

def GetPlaylistByID (repo : Repository σ U D) (playlistID : String) :
    M σ (PlaylistResponse × Option Error) := do
  let (dbPlaylist, err) ← call (.GetPlaylist playlistID) (repo.GetPlaylist playlistID)
  if err ≠ none then
    return ({}, err)
  let (dbPlaylistTracks, err) ←
    call (.GetPlaylistTracks playlistID) (repo.GetPlaylistTracks playlistID)
  if err ≠ none then
    return ({}, err)
  let (playlistTracksResponse, err) ← playlistTracksLoop repo dbPlaylistTracks []
  if err ≠ none then
    return ({}, err)
  let playlistResponse : PlaylistResponse :=
    { ID := dbPlaylist.PlaylistID, Title := dbPlaylist.PlaylistTitle,
      TrackList := playlistTracksResponse }
  return (playlistResponse, none)

def DeletePlaylistByID (repo : Repository σ U D) (playlistID userID : String) :
    M σ (Option Error) := do
  let (dbPlaylist, err) ← call (.GetPlaylist playlistID) (repo.GetPlaylist playlistID)
  if err ≠ none then
    return err
  if dbPlaylist.CreatedByID ≠ userID then
    return some Error.InvalidUserError
  let err ← callE (.DeletePlaylist playlistID) (repo.DeletePlaylist playlistID)
  if err ≠ none then
    return err
  return none

def AddTracksToPlaylist (repo : Repository σ U D) (userID playlistID : String)
    (trackList : List String) : M σ (Option Error) := do
  let (dbPlaylist, err) ← call (.GetPlaylist playlistID) (repo.GetPlaylist playlistID)
  if err ≠ none then
    return err
  if dbPlaylist.CreatedByID ≠ userID then
    return some Error.InvalidUserError
  let err ← callE (.AddTracksToPlaylist playlistID trackList)
    (repo.AddTracksToPlaylist playlistID trackList)
  if err ≠ none then
    return err
  return none

def DeleteTracksFromPlaylist (repo : Repository σ U D) (userID playlistID : String)
    (trackList : List String) : M σ (Option Error) := do
  let (dbPlaylist, err) ← call (.GetPlaylist playlistID) (repo.GetPlaylist playlistID)
  if err ≠ none then
    return err
  if dbPlaylist.CreatedByID ≠ userID then
    return some Error.InvalidUserError
  let err ← callE (.DeleteTracksFromPlaylist playlistID trackList)
    (repo.DeleteTracksFromPlaylist playlistID trackList)
  if err ≠ none then
    return err
  return none

def AddPlaylistsToUserList (repo : Repository σ U D) (userID : String)
    (playlistsID : List String) : M σ (Option Error) := do
  let err ← callE (.AddPlaylistsToUserList userID playlistsID)
    (repo.AddPlaylistsToUserList userID playlistsID)
  if err ≠ none then
    return err
  return none

def DeletePlaylistsFromUserList (repo : Repository σ U D) (userID : String)
    (playlistsID : List String) : M σ (Option Error) := do
  let err ← callE (.DeletePlaylistsFromUserList userID playlistsID)
    (repo.DeletePlaylistsFromUserList userID playlistsID)
  if err ≠ none then
    return err
  return none

end Service

/-! ## Package `api`: the middleware -/

/-- The part of `*fiber.Ctx` the two middleware functions read and write. -/
structure Ctx where
  /-- Request header `Authorization` (`""` when the header is missing). -/
  authorization : String := ""
  /-- Route parameter `userId`. -/
  paramsUserId : String := ""
  /-- Response status. -/
  status : Nat := 200
  /-- Response body written by `JSON`: the fields `ok` and `error`. -/
  json : Option (Bool × Error) := none
  /-- The user value stored under `"userID"`; nil when none was stored. -/
  userID : Value := Value.null
  /-- How often `ctx.Next()` was called. -/
  nextCalls : Nat := 0
  deriving DecidableEq, Repr

/-- Go `strings.Split(s, " ")` on the characters of `s`: the pieces between single spaces. -/
def splitSpace : List Char → List (List Char)
  | [] => [[]]
  | c :: cs =>
    if c = ' ' then [] :: splitSpace cs
    else
      match splitSpace cs with
      | [] => [[c]]
      | p :: ps => (c :: p) :: ps

/-- Go `strings.Split(s, " ")`. -/
def Split (s : String) : List String := (splitSpace s.data).map String.mk

/-- The statements `ctx.Status(401).JSON(fiber.Map{"ok": false, "error": err.Error()})`. -/
def Ctx.reject (ctx : Ctx) (err : Error) : Ctx :=
  { ctx with status := 401, json := some (false, err) }

def JWTAuthMiddleware (h : Helper) : M Ctx (Option Error) := fun ctx =>
  let authorizationHeader := ctx.authorization
  if authorizationHeader = "" then
    (some Error.NoTokenError, ctx.reject Error.NoTokenError, [])
  else
    let headerParts := Split authorizationHeader
    if headerParts.length ≠ 2 then
      (some Error.InvalidTokenError, ctx.reject Error.InvalidTokenError, [])
    else if headerParts.getD 0 "" ≠ "Bearer" then
      (some Error.InvalidTokenError, ctx.reject Error.InvalidTokenError, [])
    else
      let (claims, err) := h.ParseToken (headerParts.getD 1 "")
      let events := [Event.helper (.ParseToken (headerParts.getD 1 ""))]
      match err with
      | some e => (some e, ctx.reject e, events)
      | none =>
        let ctx := { ctx with userID := claims.get "userId" }
        let ctx := { ctx with nextCalls := ctx.nextCalls + 1 }
        (none, ctx, events)

def UserAudioMiddleware : M Ctx (Outcome (Option Error)) := fun ctx =>
  match ctx.userID.assertString with
  | none => (.panicked, ctx, [])
  | some tokenUserID =>
    let paramsUserID := ctx.paramsUserId
    if tokenUserID ≠ paramsUserID then
      (.returned (some Error.audioNotAllowed), ctx, [])
    else
      (.returned none, { ctx with nextCalls := ctx.nextCalls + 1 }, [])

/-! ## An in-memory store -/

/-- Modelled from the spec: the persistent store behind `repository.Repository` (its code is
not part of the two files). It holds the entities of the data model as tables; a refresh
token is a row pairing a user identity with a token string. -/
structure Store where
  users : List User := []
  tracks : List Track := []
  artists : List Artist := []
  playlists : List Playlist := []
  playlistTracks : List PlaylistTrack := []
  userTracks : List UserTrack := []
  userPlaylists : List UserPlaylist := []
  refreshTokens : List (String × String) := []
  deriving DecidableEq, Repr

/-- Modelled from the spec: the opaque store-level error for a missing record (`NotFound`). -/
def notFound : Error := Error.other "record not found"

/-- Modelled from the spec: the opaque identifier the store gives to the `n`-th record of a
table. -/
def newID (pre : String) (n : Nat) : String := pre ++ String.mk (List.replicate n 'i')

/-- Modelled from the spec: "one row created per successful sign-in or rotation". -/
def Store.addRefreshToken (userID token : String) (s : Store) : Option Error × Store :=
  (none, { s with refreshTokens := s.refreshTokens ++ [(userID, token)] })

/-- Modelled from the spec: rotation "atomically replaces the stored refresh-token record
(old value removed, new value inserted) for that user": exactly one row equal to the old
pair is superseded. The record is "keyed by user identity and token value", and a token that
is not present in the store does not validate; a failed update writes nothing. -/
def Store.updateRefreshToken (userID oldToken newToken : String) (s : Store) :
    Option Error × Store :=
  if (userID, oldToken) ∈ s.refreshTokens then
    (none, { s with refreshTokens :=
      s.refreshTokens.erase (userID, oldToken) ++ [(userID, newToken)] })
  else
    (some notFound, s)

/-- Modelled from the spec: revocation "removes its stored record for that user": exactly
one row equal to the pair is deleted; a token that is not present in the store does not
validate. -/
def Store.deleteRefreshToken (userID token : String) (s : Store) : Option Error × Store :=
  if (userID, token) ∈ s.refreshTokens then
    (none, { s with refreshTokens := s.refreshTokens.erase (userID, token) })
  else
    (some notFound, s)

/-- Modelled from the spec: a read of one record by its key; it fails with `notFound` when
there is none and never writes. -/
def Store.lookup {α : Type} [Inhabited α] (rows : List α) (p : α → Bool) (s : Store) :
    (α × Option Error) × Store :=
  match rows.find? p with
  | some r => ((r, none), s)
  | none => ((default, some notFound), s)

instance : Inhabited Track := ⟨{}⟩
instance : Inhabited Artist := ⟨{}⟩
instance : Inhabited User := ⟨{}⟩
instance : Inhabited Playlist := ⟨{}⟩

/-- Modelled from the spec: the store adapter of §6 over `Store`: create/read/update/delete
for the entities, the list operations, membership add/remove for a list of identities, and
refresh-token add/update/delete. The upload and delete callbacks are given as the error
they end with. Deleting a track removes it from every membership; membership rows refer to
existing tracks and playlists. -/
def memRepo : Repository Store (Option Error) (Option Error) where
  AddNewTrack := fun t uploadTrack s =>
    match uploadTrack with
    | some e => (({}, some e), s)
    | none =>
      let t := { t with TrackID := newID "t" s.tracks.length }
      ((t, none), { s with tracks := s.tracks ++ [t] })
  GetAllTracks := fun s => ((s.tracks, none), s)
  GetTrack := fun trackID s => s.lookup s.tracks (fun t => t.TrackID == trackID)
  UpdateTrack := fun t s =>
    match s.tracks.find? (fun x => x.TrackID == t.TrackID) with
    | none => (({}, some notFound), s)
    | some old =>
      let t := { t with UploadedByID := old.UploadedByID }
      ((t, none),
        { s with tracks := s.tracks.map (fun x => if x.TrackID == t.TrackID then t else x) })
  DeleteTrack := fun trackID deleteTrack s =>
    if s.tracks.all (fun t => t.TrackID != trackID) then (some notFound, s)
    else
      match deleteTrack with
      | some e => (some e, s)
      | none =>
        (none, { s with
          tracks := s.tracks.filter (fun t => t.TrackID != trackID),
          playlistTracks := s.playlistTracks.filter (fun r => r.TrackID != trackID),
          userTracks := s.userTracks.filter (fun r => r.TrackID != trackID) })
  GetArtist := fun artistID s => s.lookup s.artists (fun a => a.ArtistID == artistID)
  AddNewUser := fun u s =>
    if s.users.any (fun x => x.Email == u.Email) then
      (({}, some (Error.other "email is taken")), s)
    else
      let u := { u with UserID := newID "u" s.users.length }
      ((u, none), { s with users := s.users ++ [u] })
  GetUserByEmail := fun email s => s.lookup s.users (fun u => u.Email == email)
  AddRefreshToken := Store.addRefreshToken
  UpdateRefreshToken := Store.updateRefreshToken
  DeleteRefreshToken := Store.deleteRefreshToken
  GetUserTrackList := fun userID s =>
    ((s.userTracks.filter (fun r => r.UserID == userID), none), s)
  AddTracksToUserList := fun userID tracksID s =>
    if tracksID.all (fun id => s.tracks.any (fun t => t.TrackID == id)) then
      (none, { s with userTracks :=
        s.userTracks ++ tracksID.map (fun id => { UserID := userID, TrackID := id }) })
    else (some notFound, s)
  DeleteTracksFromUserList := fun userID tracksID s =>
    let keep := fun (r : UserTrack) => !(r.UserID == userID && tracksID.contains r.TrackID)
    (none, { s with userTracks := s.userTracks.filter keep })
  GetAllPlaylists := fun s => ((s.playlists, none), s)
  GetUserPlaylists := fun userID s =>
    ((s.userPlaylists.filter (fun r => r.UserID == userID), none), s)
  GetPlaylist := fun playlistID s =>
    s.lookup s.playlists (fun p => p.PlaylistID == playlistID)
  GetPlaylistTracks := fun playlistID s =>
    ((s.playlistTracks.filter (fun r => r.PlaylistID == playlistID), none), s)
  AddNewPlaylist := fun p s =>
    let p := { p with PlaylistID := newID "p" s.playlists.length }
    ((p, none), { s with playlists := s.playlists ++ [p] })
  DeletePlaylist := fun playlistID s =>
    if s.playlists.all (fun p => p.PlaylistID != playlistID) then (some notFound, s)
    else
      (none, { s with
        playlists := s.playlists.filter (fun p => p.PlaylistID != playlistID),
        playlistTracks := s.playlistTracks.filter (fun r => r.PlaylistID != playlistID),
        userPlaylists := s.userPlaylists.filter (fun r => r.PlaylistID != playlistID) })
  AddTracksToPlaylist := fun playlistID trackList s =>
    if trackList.all (fun id => s.tracks.any (fun t => t.TrackID == id)) then
      (none, { s with playlistTracks :=
        s.playlistTracks ++ trackList.map (fun id => { PlaylistID := playlistID, TrackID := id }) })
    else (some notFound, s)
  DeleteTracksFromPlaylist := fun playlistID trackList s =>
    let keep := fun (r : PlaylistTrack) => !(r.PlaylistID == playlistID && trackList.contains r.TrackID)
    (none, { s with playlistTracks := s.playlistTracks.filter keep })
  AddPlaylistsToUserList := fun userID playlistsID s =>
    if playlistsID.all (fun id => s.playlists.any (fun p => p.PlaylistID == id)) then
      (none, { s with userPlaylists :=
        s.userPlaylists ++ playlistsID.map (fun id => { UserID := userID, PlaylistID := id }) })
    else (some notFound, s)
  DeletePlaylistsFromUserList := fun userID playlistsID s =>
    let keep := fun (r : UserPlaylist) => !(r.UserID == userID && playlistsID.contains r.PlaylistID)
    (none, { s with userPlaylists := s.userPlaylists.filter keep })

/-- A store with one artist, two tracks, one user and one playlist of both tracks,
created by user `u1`. -/
def demoStore : Store where
  users := [{ UserID := "u1", Email := "a@x", Username := "ann", Password := "H(pw)", Role := "user" }]
  artists := [{ ArtistID := "a1", ArtistName := "Artist X" }]
  tracks := [{ TrackID := "t1", TrackTitle := "Song A", ArtistID := "a1" },
             { TrackID := "t2", TrackTitle := "Song B", ArtistID := "a1" }]
  playlists := [{ PlaylistID := "p1", PlaylistTitle := "Mix", CreatedByID := "u1" }]
  playlistTracks := [{ PlaylistID := "p1", TrackID := "t1" }, { PlaylistID := "p1", TrackID := "t2" }]
  refreshTokens := [("u1", "refresh-u1")]

/-- A helper record for the examples: tokens are a function of the user identity alone, the
token `"refresh-u1"` parses to the claims of user `u1`, the password `"pw"` verifies against
the hash `"H(pw)"`. -/
def demoHelper : Helper where
  HashPassword := fun pw => ("H(" ++ pw ++ ")", none)
  CheckPasswordHash := fun pw hash => hash == "H(" ++ pw ++ ")"
  GenerateTokens := fun userID => ("access-" ++ userID, "refresh-" ++ userID, none)
  ParseToken := fun token =>
    if token = "refresh-u1" ∨ token = "access-u1" then ([("userId", Value.str "u1")], none)
    else ([], some Error.InvalidTokenError)
  UserRole := "user"

/-- The in-memory store adapter with a refresh-token update that always fails and writes
nothing. -/
def failingUpdateRepo : Repository Store (Option Error) (Option Error) :=
  { memRepo with
    UpdateRefreshToken := fun _ _ _ s => (some (Error.other "connection lost"), s) }

/-- The in-memory store adapter with a refresh-token update that is not atomic: it removes
the old row and then fails. -/
def lossyUpdateRepo : Repository Store (Option Error) (Option Error) :=
  { memRepo with
    UpdateRefreshToken := fun userID oldToken _ s =>
      (some (Error.other "connection lost"),
        { s with refreshTokens := s.refreshTokens.erase (userID, oldToken) }) }

/-- The store two sign-ins of `u1` at one clock reading leave: the same refresh token is
recorded in two rows. -/
def twiceSignedInStore : Store :=
  { demoStore with refreshTokens := [("u1", "refresh-u1"), ("u1", "refresh-u1")] }

/-- The helper at a later clock reading: it issues token strings that differ from the ones of
`demoHelper` and still accepts the token `"refresh-u1"`. -/
def laterHelper : Helper :=
  { demoHelper with
    GenerateTokens := fun userID => ("access2-" ++ userID, "refresh2-" ++ userID, none) }

/-- A helper whose `ParseToken` accepts, without error, a token whose claims have no
`userId` entry and a token whose `userId` entry is a number. -/
def claimlessHelper : Helper :=
  { demoHelper with
    ParseToken := fun token =>
      if token = "no-claim" then ([("exp", Value.num 99)], none)
      else if token = "num-claim" then ([("userId", Value.num 7)], none)
      else demoHelper.ParseToken token }

/-! ## All service operations at once -/

/-- A call of one of the methods of `Service`, with its arguments. -/
inductive Op (U D : Type) where
  | AddNewTrack (title artistID genreID uploadedByID : String) (uploadTrack : U)
  | GetAllTracks
  | GetTrackByID (trackID : String)
  | UpdateTrackByID (trackID title artistID genreID : String)
  | DeleteTrackByID (trackID : String) (deleteTrack : D)
  | SignUp (email username password : String)
  | SignIn (email password : String)
  | RefreshToken (token : String)
  | SignOut (token : String)
  | GetUserTrackList (userID : String)
  | AddTracksToUserTrackList (userID : String) (tracksID : List String)
  | DeleteTracksFromUserTrackList (userID : String) (tracksID : List String)
  | GetAllPlaylists
  | GetUserPlaylists (userID : String)
  | CreateNewPlaylist (title createdByID : String) (trackList : List String)
  | GetPlaylistByID (playlistID : String)
  | DeletePlaylistByID (playlistID userID : String)
  | AddTracksToPlaylist (userID playlistID : String) (trackList : List String)
  | DeleteTracksFromPlaylist (userID playlistID : String) (trackList : List String)
  | AddPlaylistsToUserList (userID : String) (playlistsID : List String)
  | DeletePlaylistsFromUserList (userID : String) (playlistsID : List String)

/-- The result value of a service method, next to its error: nothing for the methods that
return only an error. -/
inductive Result where
  | track (r : TrackResponse)
  | tracks (rs : List TrackResponse)
  | playlist (r : PlaylistResponse)
  | playlists (rs : List PlaylistResponse)
  | tokens (accessToken refreshToken : String)
  | nothing
  deriving DecidableEq, Repr

/-- The zero value of the result type: the empty struct, the nil slice, two empty strings. -/
def Result.isZero : Result → Bool
  | .track r => r == {}
  | .tracks rs => rs == []
  | .playlist r => r == {}
  | .playlists rs => rs == []
  | .tokens a r => a == "" && r == ""
  | .nothing => true

/-- A method that returns a value and an error, as a result that did not panic. -/
def liftValue {σ α : Type} (f : α → Result) (m : M σ (α × Option Error)) :
    M σ (Outcome (Result × Option Error)) :=
  fun s => (Outcome.returned (f (m s).1.1, (m s).1.2), (m s).2.1, (m s).2.2)

/-- A method that returns only an error. -/
def liftError {σ : Type} (m : M σ (Option Error)) : M σ (Outcome (Result × Option Error)) :=
  fun s => (Outcome.returned (Result.nothing, (m s).1), (m s).2.1, (m s).2.2)

/-- Run the method an `Op` names. -/
def Op.run {σ U D : Type} (h : Helper) (repo : Repository σ U D) :
    Op U D → M σ (Outcome (Result × Option Error))
  | .AddNewTrack title artistID genreID uploadedByID uploadTrack =>
    liftValue Result.track (Gomusic.AddNewTrack repo title artistID genreID uploadedByID uploadTrack)
  | .GetAllTracks => liftValue Result.tracks (Gomusic.GetAllTracks repo)
  | .GetTrackByID trackID => liftValue Result.track (Gomusic.GetTrackByID repo trackID)
  | .UpdateTrackByID trackID title artistID genreID =>
    liftValue Result.track (Gomusic.UpdateTrackByID repo trackID title artistID genreID)
  | .DeleteTrackByID trackID deleteTrack =>
    liftError (Gomusic.DeleteTrackByID repo trackID deleteTrack)
  | .SignUp email username password => liftError (Gomusic.SignUp h repo email username password)
  | .SignIn email password => fun s =>
    let r := Gomusic.SignIn h repo email password s
    (Outcome.returned (Result.tokens r.1.1 r.1.2.1, r.1.2.2), r.2.1, r.2.2)
  | .RefreshToken token => fun s =>
    let r := Gomusic.RefreshToken h repo token s
    (match r.1 with
      | Outcome.returned (a, b, err) => Outcome.returned (Result.tokens a b, err)
      | Outcome.panicked => Outcome.panicked, r.2.1, r.2.2)
  | .SignOut token => fun s =>
    let r := Gomusic.SignOut h repo token s
    (match r.1 with
      | Outcome.returned err => Outcome.returned (Result.nothing, err)
      | Outcome.panicked => Outcome.panicked, r.2.1, r.2.2)
  | .GetUserTrackList userID => liftValue Result.tracks (Gomusic.GetUserTrackList repo userID)
  | .AddTracksToUserTrackList userID tracksID =>
    liftError (Gomusic.AddTracksToUserTrackList repo userID tracksID)
  | .DeleteTracksFromUserTrackList userID tracksID =>
    liftError (Gomusic.DeleteTracksFromUserTrackList repo userID tracksID)
  | .GetAllPlaylists => liftValue Result.playlists (Gomusic.GetAllPlaylists repo)
  | .GetUserPlaylists userID => liftValue Result.playlists (Gomusic.GetUserPlaylists repo userID)
  | .CreateNewPlaylist title createdByID trackList =>
    liftValue Result.playlist (Gomusic.CreateNewPlaylist repo title createdByID trackList)
  | .GetPlaylistByID playlistID => liftValue Result.playlist (Gomusic.GetPlaylistByID repo playlistID)
  | .DeletePlaylistByID playlistID userID =>
    liftError (Gomusic.DeletePlaylistByID repo playlistID userID)
  | .AddTracksToPlaylist userID playlistID trackList =>
    liftError (Gomusic.AddTracksToPlaylist repo userID playlistID trackList)
  | .DeleteTracksFromPlaylist userID playlistID trackList =>
    liftError (Gomusic.DeleteTracksFromPlaylist repo userID playlistID trackList)
  | .AddPlaylistsToUserList userID playlistsID =>
    liftError (Gomusic.AddPlaylistsToUserList repo userID playlistsID)
  | .DeletePlaylistsFromUserList userID playlistsID =>
    liftError (Gomusic.DeletePlaylistsFromUserList repo userID playlistsID)

/-- The first store call of a trace that returned an error: that error and the events after
the call; `none` when no store call failed. -/
def firstFailure : List Event → Option (Error × List Event)
  | [] => none
  | Event.repo _ (some e) :: rest => some (e, rest)
  | Event.repo _ none :: rest => firstFailure rest
  | Event.helper _ :: rest => firstFailure rest

/-- A computation whose error is the error of a store call: without an error no store call
of the run failed; with an error `e` the store call that returned `e` is the first that
failed and the last event. -/
def ErrSound {σ α : Type} (r : (α × Option Error) × σ × List Event) : Prop :=
  match r.1.2 with
  | none => firstFailure r.2.2 = none
  | some e => firstFailure r.2.2 = some (e, [])

/-- If a store call of the run failed, the first such call, with error `e`, is the last
event of the run and the value of the run is `good` for `e`. -/
def PropagatesTo {σ γ : Type} (good : Error → γ → Prop) (r : γ × σ × List Event) : Prop :=
  ∀ e rest, firstFailure r.2.2 = some (e, rest) → rest = [] ∧ good e r.1

/-- Store errors are propagated by a run: if a store call of the run failed, the first such
call, with error `e`, is the last event of the run, and the run returned `e` next to the
zero value. -/
def Propagates {σ : Type} (r : Outcome (Result × Option Error) × σ × List Event) : Prop :=
  ∀ e rest, firstFailure r.2.2 = some (e, rest) →
    rest = [] ∧ ∃ v, r.1 = Outcome.returned (v, some e) ∧ v.isZero = true

/-! ## Stepping lemmas -/

section Lemmas

variable {σ U D α β : Type}

@[simp] theorem M.pure_apply (a : α) (s : σ) : (pure a : M σ α) s = (a, s, []) := rfl

@[simp] theorem M.bind_apply (m : M σ α) (f : α → M σ β) (s : σ) :
    (m >>= f) s = ((f (m s).1 (m s).2.1).1, (f (m s).1 (m s).2.1).2.1,
      (m s).2.2 ++ (f (m s).1 (m s).2.1).2.2) := rfl

@[simp] theorem call_apply (c : Call) (f : σ → (α × Option Error) × σ) (s : σ) :
    call c f s = ((f s).1, (f s).2, [Event.repo c (f s).1.2]) := rfl

@[simp] theorem callE_apply (c : Call) (f : σ → Option Error × σ) (s : σ) :
    callE c f s = ((f s).1, (f s).2, [Event.repo c (f s).1]) := rfl

@[simp] theorem helperCall_apply (c : HelperCall) (a : α) (s : σ) :
    helperCall c a s = (a, s, [Event.helper c]) := rfl

/-- The membership loop over rows whose track and artist lookups succeed without writing:
it appends, in order, the single-track response of every row. -/
theorem playlistTracksLoop_resolved (repo : Repository σ U D) (s : σ) :
    ∀ (rows : List PlaylistTrack) (acc : List TrackResponse),
      (∀ row ∈ rows, ∃ tr ar, repo.GetTrack row.TrackID s = ((tr, none), s) ∧
        repo.GetArtist tr.ArtistID s = ((ar, none), s)) →
      (playlistTracksLoop repo rows acc s).1 =
          (acc ++ rows.map (fun row => (GetTrackByID repo row.TrackID s).1.1), none) ∧
        (playlistTracksLoop repo rows acc s).2.1 = s
  | [], acc, _ => by simp [playlistTracksLoop]
  | row :: rest, acc, hrows => by
    obtain ⟨tr, ar, hT, hA⟩ := hrows row (List.mem_cons_self row rest)
    have hrest := playlistTracksLoop_resolved repo s rest
      (acc ++ [{ ID := tr.TrackID, Title := tr.TrackTitle, Artist := ar.ArtistName }])
      (fun r hr => hrows r (List.mem_cons_of_mem row hr))
    simp [playlistTracksLoop, GetTrackByID, hT, hA, hrest.1, hrest.2]

@[simp] theorem firstFailure_nil : firstFailure [] = none := rfl

@[simp] theorem firstFailure_helper (c : HelperCall) (rest : List Event) :
    firstFailure (Event.helper c :: rest) = firstFailure rest := rfl

@[simp] theorem firstFailure_repo_none (c : Call) (rest : List Event) :
    firstFailure (Event.repo c none :: rest) = firstFailure rest := rfl

@[simp] theorem firstFailure_repo_some (c : Call) (e : Error) (rest : List Event) :
    firstFailure (Event.repo c (some e) :: rest) = some (e, rest) := rfl

theorem firstFailure_append_of_none :
    ∀ (xs ys : List Event), firstFailure xs = none → firstFailure (xs ++ ys) = firstFailure ys
  | [], _, _ => rfl
  | Event.helper _ :: xs, ys, hx => by
    simpa using firstFailure_append_of_none xs ys (by simpa using hx)
  | Event.repo _ none :: xs, ys, hx => by
    simpa using firstFailure_append_of_none xs ys (by simpa using hx)
  | Event.repo _ (some _) :: _, _, hx => by simp at hx

theorem M.pure_bind_eq (a : α) (f : α → M σ β) : (pure a >>= f) = f a := rfl

theorem firstFailure_append_of_some (xs ys : List Event) (e : Error)
    (hx : firstFailure xs = none) (hy : firstFailure ys = some (e, [])) :
    firstFailure (xs ++ ys) = some (e, []) := by
  rw [firstFailure_append_of_none xs ys hx, hy]

theorem errSound_call (c : Call) (f : σ → (α × Option Error) × σ) (s : σ) :
    ErrSound (call c f s) := by
  unfold ErrSound
  simp only [call_apply]
  cases (f s).1.2 <;> rfl

theorem errSound_pure_none (x : α) (s : σ) :
    ErrSound ((pure (x, none) : M σ (α × Option Error)) s) := rfl

/-- Sequencing after a computation whose error is a store error, when the continuation
returns at once on an error and is sound otherwise. -/
theorem errSound_bind (m : M σ (α × Option Error)) (k : α × Option Error → M σ (β × Option Error))
    (s : σ) (hm : ErrSound (m s))
    (hfail : ∀ v e s1, (k (v, some e) s1).2.2 = [] ∧ (k (v, some e) s1).1.2 = some e)
    (hok : ∀ v s1, ErrSound (k (v, none) s1)) :
    ErrSound ((m >>= k) s) := by
  simp only [M.bind_apply]
  rcases hr : m s with ⟨⟨v, err⟩, s1, evs⟩
  rw [hr] at hm
  cases err with
  | none =>
    have h0 : firstFailure evs = none := hm
    have h1 := hok v s1
    unfold ErrSound at h1 ⊢
    simp only
    cases hk : (k (v, none) s1).1.2 with
    | none =>
      rw [hk] at h1
      simp only at h1 ⊢
      rw [firstFailure_append_of_none _ _ h0]
      exact h1
    | some e =>
      rw [hk] at h1
      simp only at h1 ⊢
      exact firstFailure_append_of_some _ _ e h0 h1
  | some e =>
    have h0 : firstFailure evs = some (e, []) := hm
    obtain ⟨hk1, hk2⟩ := hfail v e s1
    unfold ErrSound
    simp only [hk1, hk2, List.append_nil]
    exact h0

/-- Sequencing after a computation whose error is a store error: store errors are
propagated when the continuation returns at once, with a good value, on an error and
propagates store errors otherwise. -/
theorem propagatesTo_bind {γ : Type} (good : Error → γ → Prop) (m : M σ (α × Option Error))
    (k : α × Option Error → M σ γ) (s : σ) (hm : ErrSound (m s))
    (hfail : ∀ v e s1, (k (v, some e) s1).2.2 = [] ∧ good e (k (v, some e) s1).1)
    (hok : ∀ v s1, PropagatesTo good (k (v, none) s1)) :
    PropagatesTo good ((m >>= k) s) := by
  intro e rest hf
  simp only [M.bind_apply] at hf ⊢
  rcases hr : m s with ⟨⟨v, err⟩, s1, evs⟩
  rw [hr] at hm hf
  simp only at hf ⊢
  cases err with
  | none =>
    have h0 : firstFailure evs = none := hm
    rw [firstFailure_append_of_none _ _ h0] at hf
    exact hok v s1 e rest hf
  | some e1 =>
    have h0 : firstFailure evs = some (e1, []) := hm
    obtain ⟨hk1, hk2⟩ := hfail v e1 s1
    rw [hk1, List.append_nil, h0] at hf
    have he : e1 = e ∧ [] = rest := by simpa using hf
    obtain ⟨he1, he2⟩ := he
    subst he1
    exact ⟨he2.symm, hk2⟩

/-- The same for a store method that returns only an error. -/
theorem propagatesTo_bindE {γ : Type} (good : Error → γ → Prop) (c : Call)
    (f : σ → Option Error × σ) (k : Option Error → M σ γ) (s : σ)
    (hfail : ∀ e s1, (k (some e) s1).2.2 = [] ∧ good e (k (some e) s1).1)
    (hok : ∀ s1, PropagatesTo good (k none s1)) :
    PropagatesTo good ((callE c f >>= k) s) := by
  intro e rest hf
  simp only [M.bind_apply, callE_apply] at hf ⊢
  cases herr : (f s).1 with
  | none =>
    rw [herr] at hf
    exact hok (f s).2 e rest (by simpa using hf)
  | some e1 =>
    rw [herr] at hf
    obtain ⟨hk1, hk2⟩ := hfail e1 (f s).2
    rw [hk1] at hf
    have he : e1 = e ∧ [] = rest := by simpa using hf
    obtain ⟨he1, he2⟩ := he
    subst he1
    exact ⟨he2.symm, hk2⟩

/-- A helper call in front does not change what is propagated. -/
theorem propagatesTo_bindH {γ : Type} (good : Error → γ → Prop) (c : HelperCall) (a : α)
    (k : α → M σ γ) (s : σ) (hk : PropagatesTo good (k a s)) :
    PropagatesTo good ((helperCall c a >>= k) s) := by
  intro e rest hf
  simp only [M.bind_apply, helperCall_apply] at hf ⊢
  exact hk e rest (by simpa using hf)

theorem errSound_playlistTracksLoop (repo : Repository σ U D) :
    ∀ (rows : List PlaylistTrack) (acc : List TrackResponse) (s : σ),
      ErrSound (playlistTracksLoop repo rows acc s)
  | [], acc, s => rfl
  | row :: rest, acc, s => by
    unfold playlistTracksLoop
    refine errSound_bind _ _ _ (errSound_call _ _ _) (fun v e s1 => by simp) (fun v s1 => ?_)
    simp only [ne_eq, not_true_eq_false, ite_false, M.pure_bind_eq]
    refine errSound_bind _ _ _ (errSound_call _ _ _) (fun v e s1 => by simp) (fun v s1 => ?_)
    simp only [ne_eq, not_true_eq_false, ite_false, M.pure_bind_eq]
    exact errSound_playlistTracksLoop repo rest _ s1

theorem errSound_GetAllTracks_loop (repo : Repository σ U D) :
    ∀ (rows : List Track) (acc : List TrackResponse) (s : σ),
      ErrSound (GetAllTracks.loop repo rows acc s)
  | [], acc, s => rfl
  | row :: rest, acc, s => by
    unfold GetAllTracks.loop
    refine errSound_bind _ _ _ (errSound_call _ _ _) (fun v e s1 => by simp) (fun v s1 => ?_)
    simp only [ne_eq, not_true_eq_false, ite_false, M.pure_bind_eq]
    exact errSound_GetAllTracks_loop repo rest _ s1

theorem errSound_GetUserTrackList_loop1 (repo : Repository σ U D) :
    ∀ (rows : List UserTrack) (acc : List Track) (s : σ),
      ErrSound (GetUserTrackList.loop1 repo rows acc s)
  | [], acc, s => rfl
  | row :: rest, acc, s => by
    unfold GetUserTrackList.loop1
    refine errSound_bind _ _ _ (errSound_call _ _ _) (fun v e s1 => by simp) (fun v s1 => ?_)
    simp only [ne_eq, not_true_eq_false, ite_false, M.pure_bind_eq]
    exact errSound_GetUserTrackList_loop1 repo rest _ s1

theorem errSound_GetUserTrackList_loop2 (repo : Repository σ U D) :
    ∀ (rows : List Track) (acc : List TrackResponse) (s : σ),
      ErrSound (GetUserTrackList.loop2 repo rows acc s)
  | [], acc, s => rfl
  | row :: rest, acc, s => by
    unfold GetUserTrackList.loop2
    refine errSound_bind _ _ _ (errSound_call _ _ _) (fun v e s1 => by simp) (fun v s1 => ?_)
    simp only [ne_eq, not_true_eq_false, ite_false, M.pure_bind_eq]
    exact errSound_GetUserTrackList_loop2 repo rest _ s1

theorem errSound_GetUserPlaylists_loop1 (repo : Repository σ U D) :
    ∀ (rows : List UserPlaylist) (acc : List Playlist) (s : σ),
      ErrSound (GetUserPlaylists.loop1 repo rows acc s)
  | [], acc, s => rfl
  | row :: rest, acc, s => by
    unfold GetUserPlaylists.loop1
    refine errSound_bind _ _ _ (errSound_call _ _ _) (fun v e s1 => by simp) (fun v s1 => ?_)
    simp only [ne_eq, not_true_eq_false, ite_false, M.pure_bind_eq]
    exact errSound_GetUserPlaylists_loop1 repo rest _ s1

theorem errSound_playlistsLoop (repo : Repository σ U D) :
    ∀ (rows : List Playlist) (acc : List PlaylistResponse) (s : σ),
      ErrSound (playlistsLoop repo rows acc s)
  | [], acc, s => rfl
  | row :: rest, acc, s => by
    unfold playlistsLoop
    refine errSound_bind _ _ _ (errSound_call _ _ _) (fun v e s1 => by simp) (fun v s1 => ?_)
    simp only [ne_eq, not_true_eq_false, ite_false, M.pure_bind_eq]
    refine errSound_bind _ _ _ (errSound_playlistTracksLoop _ _ _ _) (fun v e s1 => by simp)
      (fun v s1 => ?_)
    simp only [ne_eq, not_true_eq_false, ite_false, M.pure_bind_eq]
    exact errSound_playlistsLoop repo rest _ s1

theorem propagates_liftValue (f : α → Result) (m : M σ (α × Option Error)) (s : σ)
    (hm : PropagatesTo (fun e v => v.2 = some e ∧ (f v.1).isZero = true) (m s)) :
    Propagates (liftValue f m s) := by
  intro e rest hf
  obtain ⟨h1, h2, h3⟩ := hm e rest hf
  exact ⟨h1, f (m s).1.1, by simp [liftValue, h2], h3⟩

theorem propagates_liftError (m : M σ (Option Error)) (s : σ)
    (hm : PropagatesTo (fun e v => v = some e) (m s)) :
    Propagates (liftError m s) := by
  intro e rest hf
  obtain ⟨h1, h2⟩ := hm e rest hf
  exact ⟨h1, Result.nothing, by simp [liftError, h2], rfl⟩

theorem propagatesTo_pure {γ : Type} (good : Error → γ → Prop) (x : γ) (s : σ) :
    PropagatesTo good ((pure x : M σ γ) s) := by
  intro e rest hf
  simp at hf

/-- Every method of `Service` propagates store errors. -/
theorem propagates_run (h : Helper) (repo : Repository σ U D) (op : Op U D) (s : σ) :
    Propagates (op.run h repo s) := by
  cases op
  case SignUp email username password =>
    refine propagates_liftError _ _ ?_
    unfold SignUp
    refine propagatesTo_bindH _ _ _ _ _ ?_
    rcases h.HashPassword password with ⟨hashed, _ | e⟩
    · simp only [ne_eq, not_true_eq_false, ite_false, M.pure_bind_eq]
      refine propagatesTo_bind _ _ _ _ (errSound_call _ _ _)
        (fun v e s1 => by simp) (fun v s1 => ?_)
      simp only [ne_eq, not_true_eq_false, ite_false, M.pure_bind_eq]
      exact propagatesTo_pure _ _ _
    · simp only [ne_eq, reduceCtorEq, not_false_eq_true, ite_true]
      exact propagatesTo_pure _ _ _
  case SignIn email password =>
    have hs : PropagatesTo
        (fun e (v : String × String × Option Error) => v.2.2 = some e ∧ v.1 = "" ∧ v.2.1 = "")
        (SignIn h repo email password s) := by
      unfold SignIn
      refine propagatesTo_bind _ _ _ _ (errSound_call _ _ _)
        (fun v e s1 => by simp) (fun v s1 => ?_)
      simp only [ne_eq, not_true_eq_false, ite_false, M.pure_bind_eq]
      refine propagatesTo_bindH _ _ _ _ _ ?_
      cases h.CheckPasswordHash password v.Password
      · simp only [Bool.false_eq_true, ite_false, M.pure_bind_eq]
        exact propagatesTo_pure _ _ _
      · simp only [ite_true]
        refine propagatesTo_bindH _ _ _ _ _ ?_
        rcases h.GenerateTokens v.UserID with ⟨a, r, _ | e⟩
        · simp only [ne_eq, not_true_eq_false, ite_false, M.pure_bind_eq]
          refine propagatesTo_bindE _ _ _ _ _ (fun e s1 => by simp) (fun s1 => ?_)
          simp only [ne_eq, not_true_eq_false, ite_false, M.pure_bind_eq]
          exact propagatesTo_pure _ _ _
        · simp only [ne_eq, reduceCtorEq, not_false_eq_true, ite_true]
          exact propagatesTo_pure _ _ _
    intro e rest hf
    obtain ⟨h1, h2, h3, h4⟩ := hs e rest hf
    refine ⟨h1, Result.tokens "" "", ?_, rfl⟩
    simp only [Op.run, h2, h3, h4]
  case RefreshToken token =>
    have hs : PropagatesTo
        (fun e (v : Outcome (String × String × Option Error)) =>
          v = Outcome.returned ("", "", some e))
        (RefreshToken h repo token s) := by
      unfold RefreshToken
      refine propagatesTo_bindH _ _ _ _ _ ?_
      rcases h.ParseToken token with ⟨claims, _ | e⟩
      · simp only [ne_eq, not_true_eq_false, ite_false, M.pure_bind_eq]
        cases (claims.get "userId").assertString with
        | none => exact propagatesTo_pure _ _ _
        | some userID =>
          simp only
          refine propagatesTo_bindH _ _ _ _ _ ?_
          rcases h.GenerateTokens userID with ⟨a, r, _ | e⟩
          · simp only [ne_eq, not_true_eq_false, ite_false, M.pure_bind_eq]
            refine propagatesTo_bindE _ _ _ _ _ (fun e s1 => by simp) (fun s1 => ?_)
            simp only [ne_eq, not_true_eq_false, ite_false, M.pure_bind_eq]
            exact propagatesTo_pure _ _ _
          · simp only [ne_eq, reduceCtorEq, not_false_eq_true, ite_true]
            exact propagatesTo_pure _ _ _
      · simp only [ne_eq, reduceCtorEq, not_false_eq_true, ite_true]
        exact propagatesTo_pure _ _ _
    intro e rest hf
    obtain ⟨h1, h2⟩ := hs e rest hf
    refine ⟨h1, Result.tokens "" "", ?_, rfl⟩
    simp only [Op.run, h2]
  case SignOut token =>
    have hs : PropagatesTo
        (fun e (v : Outcome (Option Error)) => v = Outcome.returned (some e))
        (SignOut h repo token s) := by
      unfold SignOut
      refine propagatesTo_bindH _ _ _ _ _ ?_
      rcases h.ParseToken token with ⟨claims, _ | e⟩
      · simp only [ne_eq, not_true_eq_false, ite_false, M.pure_bind_eq]
        cases (claims.get "userId").assertString with
        | none => exact propagatesTo_pure _ _ _
        | some userID =>
          simp only
          refine propagatesTo_bindE _ _ _ _ _ (fun e s1 => by simp) (fun s1 => ?_)
          simp only [ne_eq, not_true_eq_false, ite_false, M.pure_bind_eq]
          exact propagatesTo_pure _ _ _
      · simp only [ne_eq, reduceCtorEq, not_false_eq_true, ite_true]
        exact propagatesTo_pure _ _ _
    intro e rest hf
    obtain ⟨h1, h2⟩ := hs e rest hf
    refine ⟨h1, Result.nothing, ?_, rfl⟩
    simp only [Op.run, h2]
  case AddNewTrack title artistID genreID uploadedByID uploadTrack =>
    refine propagates_liftValue _ _ _ ?_
    unfold Gomusic.AddNewTrack
    refine propagatesTo_bind _ _ _ _ (errSound_call _ _ _)
      (fun v e s1 => by simp [Result.isZero]) (fun v s1 => ?_)
    simp only [ne_eq, not_true_eq_false, ite_false, M.pure_bind_eq]
    refine propagatesTo_bind _ _ _ _ (errSound_call _ _ _)
      (fun v e s1 => by simp [Result.isZero]) (fun v s1 => ?_)
    simp only [ne_eq, not_true_eq_false, ite_false, M.pure_bind_eq]
    exact propagatesTo_pure _ _ _
  case GetAllTracks =>
    refine propagates_liftValue _ _ _ ?_
    unfold Gomusic.GetAllTracks
    refine propagatesTo_bind _ _ _ _ (errSound_call _ _ _)
      (fun v e s1 => by simp [Result.isZero]) (fun v s1 => ?_)
    simp only [ne_eq, not_true_eq_false, ite_false, M.pure_bind_eq]
    refine propagatesTo_bind _ _ _ _ (errSound_GetAllTracks_loop _ _ _ _)
      (fun v e s1 => by simp [Result.isZero]) (fun v s1 => ?_)
    simp only [ne_eq, not_true_eq_false, ite_false, M.pure_bind_eq]
    exact propagatesTo_pure _ _ _
  case GetTrackByID trackID =>
    refine propagates_liftValue _ _ _ ?_
    unfold Gomusic.GetTrackByID
    refine propagatesTo_bind _ _ _ _ (errSound_call _ _ _)
      (fun v e s1 => by simp [Result.isZero]) (fun v s1 => ?_)
    simp only [ne_eq, not_true_eq_false, ite_false, M.pure_bind_eq]
    refine propagatesTo_bind _ _ _ _ (errSound_call _ _ _)
      (fun v e s1 => by simp [Result.isZero]) (fun v s1 => ?_)
    simp only [ne_eq, not_true_eq_false, ite_false, M.pure_bind_eq]
    exact propagatesTo_pure _ _ _
  case UpdateTrackByID trackID title artistID genreID =>
    refine propagates_liftValue _ _ _ ?_
    unfold Gomusic.UpdateTrackByID
    refine propagatesTo_bind _ _ _ _ (errSound_call _ _ _)
      (fun v e s1 => by simp [Result.isZero]) (fun v s1 => ?_)
    simp only [ne_eq, not_true_eq_false, ite_false, M.pure_bind_eq]
    refine propagatesTo_bind _ _ _ _ (errSound_call _ _ _)
      (fun v e s1 => by simp [Result.isZero]) (fun v s1 => ?_)
    simp only [ne_eq, not_true_eq_false, ite_false, M.pure_bind_eq]
    exact propagatesTo_pure _ _ _
  case DeleteTrackByID trackID deleteTrack =>
    refine propagates_liftError _ _ ?_
    unfold Gomusic.DeleteTrackByID
    refine propagatesTo_bindE _ _ _ _ _
      (fun e s1 => by simp [Result.isZero]) (fun s1 => ?_)
    simp only [ne_eq, not_true_eq_false, ite_false, M.pure_bind_eq]
    exact propagatesTo_pure _ _ _
  case GetUserTrackList userID =>
    refine propagates_liftValue _ _ _ ?_
    unfold Gomusic.GetUserTrackList
    refine propagatesTo_bind _ _ _ _ (errSound_call _ _ _)
      (fun v e s1 => by simp [Result.isZero]) (fun v s1 => ?_)
    simp only [ne_eq, not_true_eq_false, ite_false, M.pure_bind_eq]
    refine propagatesTo_bind _ _ _ _ (errSound_GetUserTrackList_loop1 _ _ _ _)
      (fun v e s1 => by simp [Result.isZero]) (fun v s1 => ?_)
    simp only [ne_eq, not_true_eq_false, ite_false, M.pure_bind_eq]
    refine propagatesTo_bind _ _ _ _ (errSound_GetUserTrackList_loop2 _ _ _ _)
      (fun v e s1 => by simp [Result.isZero]) (fun v s1 => ?_)
    simp only [ne_eq, not_true_eq_false, ite_false, M.pure_bind_eq]
    exact propagatesTo_pure _ _ _
  case AddTracksToUserTrackList userID tracksID =>
    refine propagates_liftError _ _ ?_
    unfold Gomusic.AddTracksToUserTrackList
    refine propagatesTo_bindE _ _ _ _ _
      (fun e s1 => by simp [Result.isZero]) (fun s1 => ?_)
    simp only [ne_eq, not_true_eq_false, ite_false, M.pure_bind_eq]
    exact propagatesTo_pure _ _ _
  case DeleteTracksFromUserTrackList userID tracksID =>
    refine propagates_liftError _ _ ?_
    unfold Gomusic.DeleteTracksFromUserTrackList
    refine propagatesTo_bindE _ _ _ _ _
      (fun e s1 => by simp [Result.isZero]) (fun s1 => ?_)
    simp only [ne_eq, not_true_eq_false, ite_false, M.pure_bind_eq]
    exact propagatesTo_pure _ _ _
  case GetAllPlaylists =>
    refine propagates_liftValue _ _ _ ?_
    unfold Gomusic.GetAllPlaylists
    refine propagatesTo_bind _ _ _ _ (errSound_call _ _ _)
      (fun v e s1 => by simp [Result.isZero]) (fun v s1 => ?_)
    simp only [ne_eq, not_true_eq_false, ite_false, M.pure_bind_eq]
    refine propagatesTo_bind _ _ _ _ (errSound_playlistsLoop _ _ _ _)
      (fun v e s1 => by simp [Result.isZero]) (fun v s1 => ?_)
    simp only [ne_eq, not_true_eq_false, ite_false, M.pure_bind_eq]
    exact propagatesTo_pure _ _ _
  case GetUserPlaylists userID =>
    refine propagates_liftValue _ _ _ ?_
    unfold Gomusic.GetUserPlaylists
    refine propagatesTo_bind _ _ _ _ (errSound_call _ _ _)
      (fun v e s1 => by simp [Result.isZero]) (fun v s1 => ?_)
    simp only [ne_eq, not_true_eq_false, ite_false, M.pure_bind_eq]
    refine propagatesTo_bind _ _ _ _ (errSound_GetUserPlaylists_loop1 _ _ _ _)
      (fun v e s1 => by simp [Result.isZero]) (fun v s1 => ?_)
    simp only [ne_eq, not_true_eq_false, ite_false, M.pure_bind_eq]
    refine propagatesTo_bind _ _ _ _ (errSound_playlistsLoop _ _ _ _)
      (fun v e s1 => by simp [Result.isZero]) (fun v s1 => ?_)
    simp only [ne_eq, not_true_eq_false, ite_false, M.pure_bind_eq]
    exact propagatesTo_pure _ _ _
  case CreateNewPlaylist title createdByID trackList =>
    refine propagates_liftValue _ _ _ ?_
    unfold Gomusic.CreateNewPlaylist
    refine propagatesTo_bind _ _ _ _ (errSound_call _ _ _)
      (fun v e s1 => by simp [Result.isZero]) (fun v s1 => ?_)
    simp only [ne_eq, not_true_eq_false, ite_false, M.pure_bind_eq]
    refine propagatesTo_bindE _ _ _ _ _
      (fun e s1 => by simp [Result.isZero]) (fun s1 => ?_)
    simp only [ne_eq, not_true_eq_false, ite_false, M.pure_bind_eq]
    refine propagatesTo_bind _ _ _ _ (errSound_call _ _ _)
      (fun v e s1 => by simp [Result.isZero]) (fun v s1 => ?_)
    simp only [ne_eq, not_true_eq_false, ite_false, M.pure_bind_eq]
    refine propagatesTo_bind _ _ _ _ (errSound_playlistTracksLoop _ _ _ _)
      (fun v e s1 => by simp [Result.isZero]) (fun v s1 => ?_)
    simp only [ne_eq, not_true_eq_false, ite_false, M.pure_bind_eq]
    exact propagatesTo_pure _ _ _
  case GetPlaylistByID playlistID =>
    refine propagates_liftValue _ _ _ ?_
    unfold Gomusic.GetPlaylistByID
    refine propagatesTo_bind _ _ _ _ (errSound_call _ _ _)
      (fun v e s1 => by simp [Result.isZero]) (fun v s1 => ?_)
    simp only [ne_eq, not_true_eq_false, ite_false, M.pure_bind_eq]
    refine propagatesTo_bind _ _ _ _ (errSound_call _ _ _)
      (fun v e s1 => by simp [Result.isZero]) (fun v s1 => ?_)
    simp only [ne_eq, not_true_eq_false, ite_false, M.pure_bind_eq]
    refine propagatesTo_bind _ _ _ _ (errSound_playlistTracksLoop _ _ _ _)
      (fun v e s1 => by simp [Result.isZero]) (fun v s1 => ?_)
    simp only [ne_eq, not_true_eq_false, ite_false, M.pure_bind_eq]
    exact propagatesTo_pure _ _ _
  case DeletePlaylistByID playlistID userID =>
    refine propagates_liftError _ _ ?_
    unfold Gomusic.DeletePlaylistByID
    refine propagatesTo_bind _ _ _ _ (errSound_call _ _ _)
      (fun v e s1 => by simp [Result.isZero]) (fun v s1 => ?_)
    simp only [ne_eq, not_true_eq_false, ite_false, M.pure_bind_eq]
    by_cases hc : v.CreatedByID = userID
    · simp only [hc, not_true_eq_false, ite_false, M.pure_bind_eq]
      refine propagatesTo_bindE _ _ _ _ _
        (fun e s1 => by simp [Result.isZero]) (fun s1 => ?_)
      simp only [ne_eq, not_true_eq_false, ite_false, M.pure_bind_eq]
      exact propagatesTo_pure _ _ _
    · simp only [hc, not_false_eq_true, ite_true]
      exact propagatesTo_pure _ _ _
  case AddTracksToPlaylist userID playlistID trackList =>
    refine propagates_liftError _ _ ?_
    unfold Gomusic.AddTracksToPlaylist
    refine propagatesTo_bind _ _ _ _ (errSound_call _ _ _)
      (fun v e s1 => by simp [Result.isZero]) (fun v s1 => ?_)
    simp only [ne_eq, not_true_eq_false, ite_false, M.pure_bind_eq]
    by_cases hc : v.CreatedByID = userID
    · simp only [hc, not_true_eq_false, ite_false, M.pure_bind_eq]
      refine propagatesTo_bindE _ _ _ _ _
        (fun e s1 => by simp [Result.isZero]) (fun s1 => ?_)
      simp only [ne_eq, not_true_eq_false, ite_false, M.pure_bind_eq]
      exact propagatesTo_pure _ _ _
    · simp only [hc, not_false_eq_true, ite_true]
      exact propagatesTo_pure _ _ _
  case DeleteTracksFromPlaylist userID playlistID trackList =>
    refine propagates_liftError _ _ ?_
    unfold Gomusic.DeleteTracksFromPlaylist
    refine propagatesTo_bind _ _ _ _ (errSound_call _ _ _)
      (fun v e s1 => by simp [Result.isZero]) (fun v s1 => ?_)
    simp only [ne_eq, not_true_eq_false, ite_false, M.pure_bind_eq]
    by_cases hc : v.CreatedByID = userID
    · simp only [hc, not_true_eq_false, ite_false, M.pure_bind_eq]
      refine propagatesTo_bindE _ _ _ _ _
        (fun e s1 => by simp [Result.isZero]) (fun s1 => ?_)
      simp only [ne_eq, not_true_eq_false, ite_false, M.pure_bind_eq]
      exact propagatesTo_pure _ _ _
    · simp only [hc, not_false_eq_true, ite_true]
      exact propagatesTo_pure _ _ _
  case AddPlaylistsToUserList userID playlistsID =>
    refine propagates_liftError _ _ ?_
    unfold Gomusic.AddPlaylistsToUserList
    refine propagatesTo_bindE _ _ _ _ _
      (fun e s1 => by simp [Result.isZero]) (fun s1 => ?_)
    simp only [ne_eq, not_true_eq_false, ite_false, M.pure_bind_eq]
    exact propagatesTo_pure _ _ _
  case DeletePlaylistsFromUserList userID playlistsID =>
    refine propagates_liftError _ _ ?_
    unfold Gomusic.DeletePlaylistsFromUserList
    refine propagatesTo_bindE _ _ _ _ _
      (fun e s1 => by simp [Result.isZero]) (fun s1 => ?_)
    simp only [ne_eq, not_true_eq_false, ite_false, M.pure_bind_eq]
    exact propagatesTo_pure _ _ _

end Lemmas

/-! ## Track aggregation -/

section Theorems

variable {σ U D : Type}

/-- C4: in a store where the lookup of track `T` gives the record `tr` and the lookup of the
artist `tr.ArtistID` gives an artist with display name `N`, `GetTrackByID(T)` returns no
error and the response with `tr`'s ID and title and the artist field `N`; it makes these
two lookups and no other call. -/
theorem GetTrackByID_resolves_artist (repo : Repository σ U D) (T N : String) (tr : Track)
    (ar : Artist) (s s1 s2 : σ)
    (hT : repo.GetTrack T s = ((tr, none), s1))
    (hA : repo.GetArtist tr.ArtistID s1 = ((ar, none), s2))
    (hN : ar.ArtistName = N) :
    GetTrackByID repo T s =
      (({ ID := tr.TrackID, Title := tr.TrackTitle, Artist := N }, none), s2,
        [Event.repo (.GetTrack T) none, Event.repo (.GetArtist tr.ArtistID) none]) := by
  simp [GetTrackByID, hT, hA, hN]

theorem GetTrackByID_resolves_artist_witness :
    GetTrackByID memRepo "t1" demoStore =
      (({ ID := "t1", Title := "Song A", Artist := "Artist X" }, none), demoStore,
        [Event.repo (.GetTrack "t1") none, Event.repo (.GetArtist "a1") none]) :=
  GetTrackByID_resolves_artist memRepo "t1" "Artist X"
    { TrackID := "t1", TrackTitle := "Song A", ArtistID := "a1" }
    { ArtistID := "a1", ArtistName := "Artist X" } demoStore demoStore demoStore
    (by decide) (by decide) rfl

/-! ## Ownership of playlists -/

/-- C1: in a store where the lookup of playlist `P` gives a record created by `A`, each of
`DeletePlaylistByID(P, B)`, `AddTracksToPlaylist(B, P, tracks)` and
`DeleteTracksFromPlaylist(B, P, tracks)` with `B ≠ A` returns `InvalidUserError`, makes the
one call `GetPlaylist(P)` (not a mutating call) and leaves the store as that lookup left it;
when the lookup does not write, the store is unchanged, the playlist is still returned by
`GetPlaylist` and its membership is what it was. -/
theorem playlist_mutation_by_non_owner (repo : Repository σ U D) (P A B : String)
    (tracks : List String) (pl : Playlist) (s s1 : σ)
    (hget : repo.GetPlaylist P s = ((pl, none), s1))
    (hA : pl.CreatedByID = A) (hB : B ≠ A) :
    DeletePlaylistByID repo P B s =
        (some Error.InvalidUserError, s1, [Event.repo (.GetPlaylist P) none]) ∧
    AddTracksToPlaylist repo B P tracks s =
        (some Error.InvalidUserError, s1, [Event.repo (.GetPlaylist P) none]) ∧
    DeleteTracksFromPlaylist repo B P tracks s =
        (some Error.InvalidUserError, s1, [Event.repo (.GetPlaylist P) none]) ∧
    (Call.GetPlaylist P).isMutating = false ∧
    (s1 = s →
      (DeletePlaylistByID repo P B s).2.1 = s ∧
      (AddTracksToPlaylist repo B P tracks s).2.1 = s ∧
      (DeleteTracksFromPlaylist repo B P tracks s).2.1 = s ∧
      repo.GetPlaylist P (DeletePlaylistByID repo P B s).2.1 = ((pl, none), s) ∧
      repo.GetPlaylistTracks P (DeletePlaylistByID repo P B s).2.1 =
        repo.GetPlaylistTracks P s) := by
  have hne : ¬ pl.CreatedByID = B := by
    rw [hA]; exact fun h => hB h.symm
  have h1 : DeletePlaylistByID repo P B s =
      (some Error.InvalidUserError, s1, [Event.repo (.GetPlaylist P) none]) := by
    simp [DeletePlaylistByID, hget, hne]
  have h2 : AddTracksToPlaylist repo B P tracks s =
      (some Error.InvalidUserError, s1, [Event.repo (.GetPlaylist P) none]) := by
    simp [AddTracksToPlaylist, hget, hne]
  have h3 : DeleteTracksFromPlaylist repo B P tracks s =
      (some Error.InvalidUserError, s1, [Event.repo (.GetPlaylist P) none]) := by
    simp [DeleteTracksFromPlaylist, hget, hne]
  refine ⟨h1, h2, h3, rfl, ?_⟩
  intro hs
  subst hs
  rw [h1, h2, h3]
  exact ⟨rfl, rfl, rfl, hget, rfl⟩

theorem playlist_mutation_by_non_owner_witness :
    DeletePlaylistByID memRepo "p1" "u2" demoStore =
        (some Error.InvalidUserError, demoStore, [Event.repo (.GetPlaylist "p1") none]) ∧
    AddTracksToPlaylist memRepo "u2" "p1" ["t2"] demoStore =
        (some Error.InvalidUserError, demoStore, [Event.repo (.GetPlaylist "p1") none]) ∧
    DeleteTracksFromPlaylist memRepo "u2" "p1" ["t2"] demoStore =
        (some Error.InvalidUserError, demoStore, [Event.repo (.GetPlaylist "p1") none]) :=
  have h := playlist_mutation_by_non_owner memRepo "p1" "u1" "u2" ["t2"]
    { PlaylistID := "p1", PlaylistTitle := "Mix", CreatedByID := "u1" } demoStore demoStore
    (by decide) rfl (by decide)
  ⟨h.1, h.2.1, h.2.2.1⟩

/-! ## Sign-in -/

/-- C6: in a store where the lookup of the user by email succeeds, `SignIn` with a password
that does not verify against the stored hash returns two empty tokens and no error, having
made the user lookup and the hash check only; and whenever a run of `SignIn` generates a
token pair, records a refresh token or returns a non-empty token, the hash verified. -/
theorem SignIn_wrong_password (h : Helper) (repo : Repository σ U D) (email password : String)
    (user : User) (s s1 : σ)
    (hu : repo.GetUserByEmail email s = ((user, none), s1)) :
    (h.CheckPasswordHash password user.Password = false →
      SignIn h repo email password s =
        (("", "", none), s1,
          [Event.repo (.GetUserByEmail email) none,
           Event.helper (.CheckPasswordHash password user.Password)])) ∧
    (((∃ u, Event.helper (.GenerateTokens u) ∈ (SignIn h repo email password s).2.2) ∨
      (∃ u t e, Event.repo (.AddRefreshToken u t) e ∈ (SignIn h repo email password s).2.2) ∨
      (SignIn h repo email password s).1.1 ≠ "" ∨
      (SignIn h repo email password s).1.2.1 ≠ "") →
      h.CheckPasswordHash password user.Password = true) := by
  constructor
  · intro hc
    simp [SignIn, hu, hc]
  · intro hex
    by_contra hc
    have hc : h.CheckPasswordHash password user.Password = false := by
      simpa using hc
    simp [SignIn, hu, hc] at hex

theorem SignIn_wrong_password_witness :
    SignIn demoHelper memRepo "a@x" "bad" demoStore =
      (("", "", none), demoStore,
        [Event.repo (.GetUserByEmail "a@x") none,
         Event.helper (.CheckPasswordHash "bad" "H(pw)")]) :=
  (SignIn_wrong_password demoHelper memRepo "a@x" "bad"
    { UserID := "u1", Email := "a@x", Username := "ann", Password := "H(pw)", Role := "user" }
    demoStore demoStore (by decide)).1 (by decide)

/-! ## Rotation -/

/-- C7, as the claim states it, fails on a store whose failed update is not atomic: with
`lossyUpdateRepo` the token `"refresh-u1"` is recorded and usable before the attempt (a
rotation on the store succeeds), `RefreshToken` returns two empty tokens and the store's
error, and afterwards the record is gone and a rotation of the same token is refused. -/
theorem RefreshToken_update_failure_counterexample :
    ("u1", "refresh-u1") ∈ demoStore.refreshTokens ∧
    (RefreshToken laterHelper memRepo "refresh-u1" demoStore).1 =
      Outcome.returned ("access2-u1", "refresh2-u1", none) ∧
    RefreshToken laterHelper lossyUpdateRepo "refresh-u1" demoStore =
      (Outcome.returned ("", "", some (Error.other "connection lost")),
        { demoStore with refreshTokens := [] },
        [Event.helper (.ParseToken "refresh-u1"), Event.helper (.GenerateTokens "u1"),
         Event.repo (.UpdateRefreshToken "u1" "refresh-u1" "refresh2-u1")
           (some (Error.other "connection lost"))]) ∧
    ("u1", "refresh-u1") ∉
      (RefreshToken laterHelper lossyUpdateRepo "refresh-u1" demoStore).2.1.refreshTokens ∧
    (RefreshToken laterHelper memRepo "refresh-u1"
        (RefreshToken laterHelper lossyUpdateRepo "refresh-u1" demoStore).2.1).1 =
      Outcome.returned ("", "", some notFound) := by
  refine ⟨?_, ?_, ?_, ?_, ?_⟩ <;> decide

/-- C7, amended: for a token `t` that parses to a string identity `u` and for which a new
pair `(a, r)` is generated, if the store's `UpdateRefreshToken(u, t, r)` fails with `e`, then
`RefreshToken(t)` returns two empty tokens and `e`, the failed update is its only store call
(nothing revokes `t` before it, nothing compensates after it), and the store it leaves is
the store the failed update left. When the failed update wrote nothing, the store is the
one before the call, and a later `RefreshToken(t)` behaves as it would have before the
attempt. -/
theorem RefreshToken_update_failure (h : Helper) (repo : Repository σ U D) (t u a r : String)
    (claims : MapClaims) (e : Error) (s s1 : σ)
    (hp : h.ParseToken t = (claims, none))
    (hu : claims.get "userId" = Value.str u)
    (hg : h.GenerateTokens u = (a, r, none))
    (hup : repo.UpdateRefreshToken u t r s = (some e, s1)) :
    RefreshToken h repo t s =
      (Outcome.returned ("", "", some e), s1,
        [Event.helper (.ParseToken t), Event.helper (.GenerateTokens u),
         Event.repo (.UpdateRefreshToken u t r) (some e)]) ∧
    (RefreshToken h repo t s).2.1 = (repo.UpdateRefreshToken u t r s).2 ∧
    (s1 = s →
      (RefreshToken h repo t s).2.1 = s ∧
      ∀ h2 : Helper,
        RefreshToken h2 repo t (RefreshToken h repo t s).2.1 = RefreshToken h2 repo t s) := by
  have h1 : RefreshToken h repo t s =
      (Outcome.returned ("", "", some e), s1,
        [Event.helper (.ParseToken t), Event.helper (.GenerateTokens u),
         Event.repo (.UpdateRefreshToken u t r) (some e)]) := by
    simp [RefreshToken, hp, hu, hg, hup, Value.assertString]
  refine ⟨h1, by rw [h1, hup], ?_⟩
  intro hs
  refine ⟨by rw [h1, hs], ?_⟩
  intro h2
  rw [h1, hs]

theorem RefreshToken_update_failure_witness :
    RefreshToken laterHelper failingUpdateRepo "refresh-u1" demoStore =
      (Outcome.returned ("", "", some (Error.other "connection lost")), demoStore,
        [Event.helper (.ParseToken "refresh-u1"), Event.helper (.GenerateTokens "u1"),
         Event.repo (.UpdateRefreshToken "u1" "refresh-u1" "refresh2-u1")
           (some (Error.other "connection lost"))]) ∧
    (RefreshToken laterHelper failingUpdateRepo "refresh-u1" demoStore).2.1 = demoStore :=
  have hw := RefreshToken_update_failure laterHelper failingUpdateRepo "refresh-u1" "u1"
    "access2-u1" "refresh2-u1" [("userId", Value.str "u1")] (Error.other "connection lost")
    demoStore demoStore (by decide) (by decide) (by decide) rfl
  ⟨hw.1, (hw.2.2 rfl).1⟩

/-! ## Middleware -/

/-- C5: for every `Authorization` header value: when it is empty `JWTAuthMiddleware` returns
`NoTokenError`; when it is not empty and `strings.Split(header, " ")` does not have exactly
two parts or its first part is not `"Bearer"`, it returns `InvalidTokenError`. In all these
cases the status is 401, the body carries that error, the stored `userID` value and the
count of `Next` calls are what they were, and no call (so no `ParseToken`) is made. -/
theorem JWTAuthMiddleware_malformed_header (h : Helper) (ctx : Ctx) :
    (ctx.authorization = "" →
      JWTAuthMiddleware h ctx =
        (some Error.NoTokenError,
          { ctx with status := 401, json := some (false, Error.NoTokenError) }, [])) ∧
    (ctx.authorization ≠ "" →
      ((Split ctx.authorization).length ≠ 2 ∨ (Split ctx.authorization).getD 0 "" ≠ "Bearer") →
      JWTAuthMiddleware h ctx =
        (some Error.InvalidTokenError,
          { ctx with status := 401, json := some (false, Error.InvalidTokenError) }, [])) ∧
    ((ctx.authorization = "" ∨ (Split ctx.authorization).length ≠ 2 ∨
        (Split ctx.authorization).getD 0 "" ≠ "Bearer") →
      (JWTAuthMiddleware h ctx).1 ≠ none ∧
      (JWTAuthMiddleware h ctx).2.1.status = 401 ∧
      (JWTAuthMiddleware h ctx).2.1.userID = ctx.userID ∧
      (JWTAuthMiddleware h ctx).2.1.nextCalls = ctx.nextCalls ∧
      (JWTAuthMiddleware h ctx).2.2 = []) := by
  have hempty : ctx.authorization = "" →
      JWTAuthMiddleware h ctx =
        (some Error.NoTokenError,
          { ctx with status := 401, json := some (false, Error.NoTokenError) }, []) := by
    intro he
    simp [JWTAuthMiddleware, he, Ctx.reject]
  have hbad : ctx.authorization ≠ "" →
      ((Split ctx.authorization).length ≠ 2 ∨ (Split ctx.authorization).getD 0 "" ≠ "Bearer") →
      JWTAuthMiddleware h ctx =
        (some Error.InvalidTokenError,
          { ctx with status := 401, json := some (false, Error.InvalidTokenError) }, []) := by
    intro hne hor
    unfold JWTAuthMiddleware
    simp only [hne, if_false, Ctx.reject]
    by_cases hl : (Split ctx.authorization).length = 2
    · have hb : (Split ctx.authorization).getD 0 "" ≠ "Bearer" := by
        rcases hor with h1 | h1
        · exact absurd hl h1
        · exact h1
      simp only [hl, hb, ne_eq, not_true_eq_false, not_false_eq_true, if_true, if_false]
    · simp only [hl, ne_eq, not_false_eq_true, if_true]
  refine ⟨hempty, hbad, ?_⟩
  intro hor
  by_cases he : ctx.authorization = ""
  · rw [hempty he]
    simp
  · have hor2 : (Split ctx.authorization).length ≠ 2 ∨
        (Split ctx.authorization).getD 0 "" ≠ "Bearer" := by
      rcases hor with h1 | h1
      · exact absurd h1 he
      · exact h1
    rw [hbad he hor2]
    simp

theorem JWTAuthMiddleware_malformed_header_witness :
    JWTAuthMiddleware demoHelper { authorization := "Token access-u1" } =
      (some Error.InvalidTokenError,
        { authorization := "Token access-u1", status := 401,
          json := some (false, Error.InvalidTokenError) }, []) ∧
    JWTAuthMiddleware demoHelper { authorization := "access-u1" } =
      (some Error.InvalidTokenError,
        { authorization := "access-u1", status := 401,
          json := some (false, Error.InvalidTokenError) }, []) ∧
    JWTAuthMiddleware demoHelper { authorization := "" } =
      (some Error.NoTokenError,
        { authorization := "", status := 401, json := some (false, Error.NoTokenError) }, []) :=
  ⟨(JWTAuthMiddleware_malformed_header demoHelper { authorization := "Token access-u1" }).2.1
      (by decide) (by decide),
   (JWTAuthMiddleware_malformed_header demoHelper { authorization := "access-u1" }).2.1
      (by decide) (by decide),
   (JWTAuthMiddleware_malformed_header demoHelper { authorization := "" }).1 (by decide)⟩

/-- C9: when the stored `userID` value is the string `u` and the route parameter is `p`,
`UserAudioMiddleware` returns an error without calling `Next` and without writing to the
context if `p ≠ u`, and calls `Next` once and returns nil if `p = u`; two contexts with the
same `u` and `p` get the same result and the same number of `Next` calls. -/
theorem UserAudioMiddleware_decision (ctx : Ctx) (u : String)
    (hu : ctx.userID = Value.str u) :
    (ctx.paramsUserId ≠ u →
      UserAudioMiddleware ctx = (Outcome.returned (some Error.audioNotAllowed), ctx, [])) ∧
    (ctx.paramsUserId = u →
      UserAudioMiddleware ctx =
        (Outcome.returned none, { ctx with nextCalls := ctx.nextCalls + 1 }, [])) ∧
    (∀ ctx2 : Ctx, ctx2.userID = Value.str u → ctx2.paramsUserId = ctx.paramsUserId →
      (UserAudioMiddleware ctx2).1 = (UserAudioMiddleware ctx).1 ∧
      (UserAudioMiddleware ctx2).2.1.nextCalls - ctx2.nextCalls =
        (UserAudioMiddleware ctx).2.1.nextCalls - ctx.nextCalls) := by
  refine ⟨?_, ?_, ?_⟩
  · intro hne
    have hne2 : ¬ u = ctx.paramsUserId := fun h => hne h.symm
    simp [UserAudioMiddleware, hu, Value.assertString, hne2]
  · intro heq
    simp [UserAudioMiddleware, hu, Value.assertString, heq]
  · intro ctx2 hu2 hp
    by_cases heq : u = ctx.paramsUserId
    · simp [UserAudioMiddleware, hu, hu2, hp, Value.assertString, heq]
    · simp [UserAudioMiddleware, hu, hu2, hp, Value.assertString, heq]

theorem UserAudioMiddleware_decision_witness :
    UserAudioMiddleware { userID := Value.str "u1", paramsUserId := "u2" } =
      (Outcome.returned (some Error.audioNotAllowed),
        { userID := Value.str "u1", paramsUserId := "u2" }, []) ∧
    UserAudioMiddleware { userID := Value.str "u1", paramsUserId := "u1" } =
      (Outcome.returned none,
        { userID := Value.str "u1", paramsUserId := "u1", nextCalls := 1 }, []) :=
  ⟨(UserAudioMiddleware_decision { userID := Value.str "u1", paramsUserId := "u2" } "u1"
      rfl).1 (by decide),
   (UserAudioMiddleware_decision { userID := Value.str "u1", paramsUserId := "u1" } "u1"
      rfl).2.1 rfl⟩

/-! ## Playlist aggregation -/

/-- C3: in a store where the lookup of playlist `P` gives `pl`, its membership is the rows
`rows`, and every member's track and artist lookups succeed (none of these reads writing to
the store), `GetPlaylistByID(P)` returns no error and a response with `pl`'s ID and title
whose track list has as many entries as `rows`, the `i`-th entry being the response of
`GetTrackByID` for the `i`-th row's track. -/
theorem GetPlaylistByID_resolves_tracks (repo : Repository σ U D) (P : String) (pl : Playlist)
    (rows : List PlaylistTrack) (s : σ)
    (hP : repo.GetPlaylist P s = ((pl, none), s))
    (hM : repo.GetPlaylistTracks P s = ((rows, none), s))
    (hT : ∀ row ∈ rows, ∃ tr ar, repo.GetTrack row.TrackID s = ((tr, none), s) ∧
      repo.GetArtist tr.ArtistID s = ((ar, none), s)) :
    ∃ resp : PlaylistResponse,
      (GetPlaylistByID repo P s).1 = (resp, none) ∧
      (GetPlaylistByID repo P s).2.1 = s ∧
      resp.ID = pl.PlaylistID ∧ resp.Title = pl.PlaylistTitle ∧
      resp.TrackList.length = rows.length ∧
      ∀ (i : Nat) (h1 : i < rows.length) (h2 : i < resp.TrackList.length),
        (GetTrackByID repo rows[i].TrackID s).1 = (resp.TrackList[i], none) := by
  have hloop := playlistTracksLoop_resolved repo s rows [] hT
  refine ⟨{ ID := pl.PlaylistID, Title := pl.PlaylistTitle,
            TrackList := rows.map (fun row => (GetTrackByID repo row.TrackID s).1.1) },
    ?_, ?_, rfl, rfl, ?_, ?_⟩
  · simp [GetPlaylistByID, hP, hM, hloop.1]
  · simp [GetPlaylistByID, hP, hM, hloop.1, hloop.2]
  · simp
  · intro i h1 h2
    obtain ⟨tr, ar, hTr, hAr⟩ := hT rows[i] (List.getElem_mem h1)
    simp [GetTrackByID, hTr, hAr]

theorem GetPlaylistByID_resolves_tracks_witness :
    ∃ resp : PlaylistResponse,
      (GetPlaylistByID memRepo "p1" demoStore).1 = (resp, none) ∧
      (GetPlaylistByID memRepo "p1" demoStore).2.1 = demoStore ∧
      resp.ID = "p1" ∧ resp.Title = "Mix" ∧
      resp.TrackList.length = 2 ∧
      ∀ (i : Nat)
        (h1 : i < [({ PlaylistID := "p1", TrackID := "t1" } : PlaylistTrack),
                   { PlaylistID := "p1", TrackID := "t2" }].length)
        (h2 : i < resp.TrackList.length),
        (GetTrackByID memRepo
          ([({ PlaylistID := "p1", TrackID := "t1" } : PlaylistTrack),
            { PlaylistID := "p1", TrackID := "t2" }][i]).TrackID demoStore).1 =
          (resp.TrackList[i], none) :=
  GetPlaylistByID_resolves_tracks memRepo "p1"
    { PlaylistID := "p1", PlaylistTitle := "Mix", CreatedByID := "u1" }
    [{ PlaylistID := "p1", TrackID := "t1" }, { PlaylistID := "p1", TrackID := "t2" }]
    demoStore (by decide) (by decide)
    (by
      intro row hrow
      have hcases : row = { PlaylistID := "p1", TrackID := "t1" } ∨
          row = { PlaylistID := "p1", TrackID := "t2" } := by simpa using hrow
      rcases hcases with rfl | rfl
      · exact ⟨{ TrackID := "t1", TrackTitle := "Song A", ArtistID := "a1" },
          { ArtistID := "a1", ArtistName := "Artist X" }, by decide, by decide⟩
      · exact ⟨{ TrackID := "t2", TrackTitle := "Song B", ArtistID := "a1" },
          { ArtistID := "a1", ArtistName := "Artist X" }, by decide, by decide⟩)

/-! ## Single use of a refresh token -/

/-- C2, as the claim states it, fails when two issues of a token for one user give the same
string (two issues at one clock reading; `demoHelper` issues tokens as a function of the user
identity alone). First, the store of `demoStore` is the one a sign-in of `u1` leaves, and a
rotation that re-issues the string `"refresh-u1"` succeeds twice in a row on it. Second, a
second sign-in records the same string in a second row, and on that store a rotation still
succeeds after `SignOut`, and a second rotation succeeds after a first one, although these
later calls issue strings different from the token. -/
theorem refresh_token_reuse_counterexample :
    SignIn demoHelper memRepo "a@x" "pw" { demoStore with refreshTokens := [] } =
      (("access-u1", "refresh-u1", none), demoStore,
        [Event.repo (.GetUserByEmail "a@x") none,
         Event.helper (.CheckPasswordHash "pw" "H(pw)"),
         Event.helper (.GenerateTokens "u1"),
         Event.repo (.AddRefreshToken "u1" "refresh-u1") none]) ∧
    (RefreshToken demoHelper memRepo "refresh-u1" demoStore).1 =
      Outcome.returned ("access-u1", "refresh-u1", none) ∧
    (RefreshToken demoHelper memRepo "refresh-u1"
        (RefreshToken demoHelper memRepo "refresh-u1" demoStore).2.1).1 =
      Outcome.returned ("access-u1", "refresh-u1", none) ∧
    (SignIn demoHelper memRepo "a@x" "pw" demoStore).2.1 = twiceSignedInStore ∧
    (SignOut laterHelper memRepo "refresh-u1" twiceSignedInStore).1 = Outcome.returned none ∧
    (RefreshToken laterHelper memRepo "refresh-u1"
        (SignOut laterHelper memRepo "refresh-u1" twiceSignedInStore).2.1).1 =
      Outcome.returned ("access2-u1", "refresh2-u1", none) ∧
    (RefreshToken laterHelper memRepo "refresh-u1" twiceSignedInStore).1 =
      Outcome.returned ("access2-u1", "refresh2-u1", none) ∧
    (RefreshToken laterHelper memRepo "refresh-u1"
        (RefreshToken laterHelper memRepo "refresh-u1" twiceSignedInStore).2.1).1 =
      Outcome.returned ("access2-u1", "refresh2-u1", none) := by
  refine ⟨?_, ?_, ?_, ?_, ?_, ?_, ?_, ?_⟩ <;> decide

/-- C2, amended: over the in-memory store, for a token `t` that parses to the string
identity `u` and is recorded for `u` in exactly one row: if `RefreshToken(t)` issues a
refresh token different from `t` it succeeds, and a following `RefreshToken(t)` returns an
error; `SignOut(t)` succeeds, and a following `RefreshToken(t)` returns an error. The
following call may use a helper `h2` of a later time, for which `t` still parses as before;
the refusal is the error of the store's update, passed through. -/
theorem refresh_token_single_use (h h2 : Helper) (t u : String) (claims : MapClaims)
    (s : Store)
    (hp : h.ParseToken t = (claims, none))
    (hu : claims.get "userId" = Value.str u)
    (hp2 : h2.ParseToken t = h.ParseToken t)
    (hrec : s.refreshTokens.count (u, t) = 1) :
    (∀ a r : String, h.GenerateTokens u = (a, r, none) → r ≠ t →
      (RefreshToken h memRepo t s).1 = Outcome.returned (a, r, none) ∧
      ∃ e, (RefreshToken h2 memRepo t (RefreshToken h memRepo t s).2.1).1 =
        Outcome.returned ("", "", some e)) ∧
    ((SignOut h memRepo t s).1 = Outcome.returned none ∧
      ∃ e, (RefreshToken h2 memRepo t (SignOut h memRepo t s).2.1).1 =
        Outcome.returned ("", "", some e)) := by
  have hp2 : h2.ParseToken t = (claims, none) := by rw [hp2, hp]
  have hmem : (u, t) ∈ s.refreshTokens := by
    rw [← List.count_pos_iff, hrec]
    exact Nat.one_pos
  have hgone : (u, t) ∉ s.refreshTokens.erase (u, t) := by
    rw [← List.count_eq_zero, List.count_erase_self, hrec]
  constructor
  · intro a r hg hrt
    have hfirst : RefreshToken h memRepo t s =
        (Outcome.returned (a, r, none),
          { s with refreshTokens := s.refreshTokens.erase (u, t) ++ [(u, r)] },
          [Event.helper (.ParseToken t), Event.helper (.GenerateTokens u),
           Event.repo (.UpdateRefreshToken u t r) none]) := by
      simp [RefreshToken, hp, hu, hg, Value.assertString, memRepo, Store.updateRefreshToken,
        hmem]
    refine ⟨by rw [hfirst], ?_⟩
    rw [hfirst]
    have hrt2 : ¬ t = r := fun hh => hrt hh.symm
    have habsent : (u, t) ∉ s.refreshTokens.erase (u, t) ++ [(u, r)] := by
      simp [hgone, hrt2]
    rcases hg2 : h2.GenerateTokens u with ⟨a2, r2, _ | e2⟩
    · refine ⟨notFound, ?_⟩
      simp [RefreshToken, hp2, hu, hg2, Value.assertString, memRepo, Store.updateRefreshToken,
        habsent]
    · refine ⟨e2, ?_⟩
      simp [RefreshToken, hp2, hu, hg2, Value.assertString]
  · have hout : SignOut h memRepo t s =
        (Outcome.returned none,
          { s with refreshTokens := s.refreshTokens.erase (u, t) },
          [Event.helper (.ParseToken t), Event.repo (.DeleteRefreshToken u t) none]) := by
      simp [SignOut, hp, hu, Value.assertString, memRepo, Store.deleteRefreshToken, hmem]
    refine ⟨by rw [hout], ?_⟩
    rw [hout]
    rcases hg2 : h2.GenerateTokens u with ⟨a2, r2, _ | e2⟩
    · refine ⟨notFound, ?_⟩
      simp [RefreshToken, hp2, hu, hg2, Value.assertString, memRepo, Store.updateRefreshToken,
        hgone]
    · refine ⟨e2, ?_⟩
      simp [RefreshToken, hp2, hu, hg2, Value.assertString]

theorem refresh_token_single_use_witness :
    (RefreshToken laterHelper memRepo "refresh-u1" demoStore).1 =
        Outcome.returned ("access2-u1", "refresh2-u1", none) ∧
    (∃ e, (RefreshToken laterHelper memRepo "refresh-u1"
        (RefreshToken laterHelper memRepo "refresh-u1" demoStore).2.1).1 =
      Outcome.returned ("", "", some e)) ∧
    (SignOut laterHelper memRepo "refresh-u1" demoStore).1 = Outcome.returned none ∧
    (∃ e, (RefreshToken laterHelper memRepo "refresh-u1"
        (SignOut laterHelper memRepo "refresh-u1" demoStore).2.1).1 =
      Outcome.returned ("", "", some e)) :=
  have hw := refresh_token_single_use laterHelper laterHelper "refresh-u1" "u1"
    [("userId", Value.str "u1")] demoStore (by decide) (by decide) rfl (by decide)
  ⟨(hw.1 "access2-u1" "refresh2-u1" (by decide) (by decide)).1,
   (hw.1 "access2-u1" "refresh2-u1" (by decide) (by decide)).2, hw.2.1, hw.2.2⟩

/-! ## Tokens without a string `userId` claim -/

/-- C8, as the claim states it, fails: for a token that parses without error to claims with
no `userId` entry (`"no-claim"`) or with a number as `userId` (`"num-claim"`),
`JWTAuthMiddleware` returns nil, leaves the status at 200 and calls `Next`, and
`RefreshToken` and `SignOut` do not return `InvalidTokenError`: they panic. -/
theorem claim_shape_counterexample :
    JWTAuthMiddleware claimlessHelper { authorization := "Bearer no-claim" } =
      (none, { authorization := "Bearer no-claim", userID := Value.null, nextCalls := 1 },
        [Event.helper (.ParseToken "no-claim")]) ∧
    JWTAuthMiddleware claimlessHelper { authorization := "Bearer num-claim" } =
      (none, { authorization := "Bearer num-claim", userID := Value.num 7, nextCalls := 1 },
        [Event.helper (.ParseToken "num-claim")]) ∧
    (RefreshToken claimlessHelper memRepo "no-claim" demoStore).1 ≠
      Outcome.returned ("", "", some Error.InvalidTokenError) ∧
    (RefreshToken claimlessHelper memRepo "num-claim" demoStore).1 = Outcome.panicked ∧
    (SignOut claimlessHelper memRepo "no-claim" demoStore).1 ≠
      Outcome.returned (some Error.InvalidTokenError) ∧
    (SignOut claimlessHelper memRepo "num-claim" demoStore).1 = Outcome.panicked := by
  refine ⟨?_, ?_, ?_, ?_, ?_, ?_⟩ <;> decide

/-- C8, amended: for a token that `ParseToken` accepts with claims whose `userId` entry is
absent or not a string, `JWTAuthMiddleware` (given the header `Bearer <token>`) does not
check the claim: it stores the raw value `claims["userId"]` under `userID`, calls `Next` and
returns nil; `RefreshToken` and `SignOut` stop in the panic of the type assertion right
after the parse, so they make no store call, generate no tokens and leave the store as it
was. -/
theorem claim_shape_unchecked (h : Helper) (token : String) (claims : MapClaims)
    (hp : h.ParseToken token = (claims, none))
    (hc : (claims.get "userId").assertString = none) :
    (∀ ctx : Ctx, Split ctx.authorization = ["Bearer", token] →
      JWTAuthMiddleware h ctx =
        (none, { ctx with userID := claims.get "userId", nextCalls := ctx.nextCalls + 1 },
          [Event.helper (.ParseToken token)])) ∧
    (∀ (σ U D : Type) (repo : Repository σ U D) (s : σ),
      RefreshToken h repo token s = (Outcome.panicked, s, [Event.helper (.ParseToken token)]) ∧
      SignOut h repo token s = (Outcome.panicked, s, [Event.helper (.ParseToken token)])) := by
  constructor
  · intro ctx hs
    have hne : ctx.authorization ≠ "" := by
      intro he
      rw [he] at hs
      simp [Split, splitSpace] at hs
    unfold JWTAuthMiddleware
    simp only [hne, if_false, hs]
    simp [hp]
  · intro σ U D repo s
    constructor
    · simp [RefreshToken, hp, hc]
    · simp [SignOut, hp, hc]

theorem claim_shape_unchecked_witness :
    JWTAuthMiddleware claimlessHelper { authorization := "Bearer num-claim" } =
      (none, { authorization := "Bearer num-claim", userID := Value.num 7, nextCalls := 1 },
        [Event.helper (.ParseToken "num-claim")]) ∧
    RefreshToken claimlessHelper memRepo "num-claim" demoStore =
      (Outcome.panicked, demoStore, [Event.helper (.ParseToken "num-claim")]) ∧
    SignOut claimlessHelper memRepo "num-claim" demoStore =
      (Outcome.panicked, demoStore, [Event.helper (.ParseToken "num-claim")]) :=
  have hw := claim_shape_unchecked claimlessHelper "num-claim" [("userId", Value.num 7)]
    (by decide) (by decide)
  ⟨hw.1 { authorization := "Bearer num-claim" } (by decide),
   (hw.2 Store (Option Error) (Option Error) memRepo demoStore).1,
   (hw.2 Store (Option Error) (Option Error) memRepo demoStore).2⟩

/-! ## Propagation of store errors -/

/-- C10: for every method of `Service`, every helper and every store: if a store call of
the run fails, then the first failing call, with error `e`, is the last event of the run
(no store call follows, none compensates) and the method returns `e` next to the zero value
of its result type. In particular a playlist whose track attachment failed and a track
whose artist lookup failed stay in the store: the store after the run is the one the
failing call left. -/
theorem store_errors_are_propagated (h : Helper) (repo : Repository σ U D) :
    (∀ (op : Op U D) (s : σ) (e : Error) (rest : List Event),
      firstFailure (op.run h repo s).2.2 = some (e, rest) →
      rest = [] ∧ ∃ v, (op.run h repo s).1 = Outcome.returned (v, some e) ∧ v.isZero = true) ∧
    (∀ (title createdByID : String) (trackList : List String) (pl : Playlist) (s s1 s2 : σ)
      (e : Error),
      repo.AddNewPlaylist { PlaylistTitle := title, CreatedByID := createdByID } s =
        ((pl, none), s1) →
      repo.AddTracksToPlaylist pl.PlaylistID trackList s1 = (some e, s2) →
      CreateNewPlaylist repo title createdByID trackList s =
        (({}, some e), s2,
          [Event.repo (.AddNewPlaylist { PlaylistTitle := title, CreatedByID := createdByID })
             none,
           Event.repo (.AddTracksToPlaylist pl.PlaylistID trackList) (some e)])) ∧
    (∀ (title artistID genreID uploadedByID : String) (uploadTrack : U) (newTrack tr : Track)
      (ar : Artist) (s s1 s2 : σ) (e : Error),
      newTrack = { TrackTitle := title, ArtistID := artistID, GenreID := genreID, UploadedByID := uploadedByID } →
      repo.AddNewTrack newTrack uploadTrack s = ((tr, none), s1) →
      repo.GetArtist tr.ArtistID s1 = ((ar, some e), s2) →
      AddNewTrack repo title artistID genreID uploadedByID uploadTrack s =
        (({}, some e), s2,
          [Event.repo (.AddNewTrack newTrack) none,
           Event.repo (.GetArtist tr.ArtistID) (some e)])) := by
  refine ⟨?_, ?_, ?_⟩
  · intro op s e rest hf
    exact propagates_run h repo op s e rest hf
  · intro title createdByID trackList pl s s1 s2 e h1 h2
    simp [CreateNewPlaylist, h1, h2]
  · intro title artistID genreID uploadedByID uploadTrack newTrack tr ar s s1 s2 e hn h1 h2
    subst hn
    simp [AddNewTrack, h1, h2]

theorem store_errors_are_propagated_witness :
    firstFailure (Op.run demoHelper memRepo (Op.CreateNewPlaylist "New" "u1" ["zz"])
        demoStore).2.2 = some (notFound, []) ∧
    (([] : List Event) = [] ∧
      ∃ v, (Op.run demoHelper memRepo (Op.CreateNewPlaylist "New" "u1" ["zz"]) demoStore).1 =
        Outcome.returned (v, some notFound) ∧ v.isZero = true) ∧
    CreateNewPlaylist memRepo "New" "u1" ["zz"] demoStore =
      (({}, some notFound),
        { demoStore with playlists := demoStore.playlists ++
            [{ PlaylistID := "pi", PlaylistTitle := "New", CreatedByID := "u1" }] },
        [Event.repo (.AddNewPlaylist { PlaylistTitle := "New", CreatedByID := "u1" }) none,
         Event.repo (.AddTracksToPlaylist "pi" ["zz"]) (some notFound)]) :=
  ⟨by decide,
   (store_errors_are_propagated demoHelper memRepo).1
     (Op.CreateNewPlaylist "New" "u1" ["zz"]) demoStore notFound [] (by decide),
   (store_errors_are_propagated demoHelper memRepo).2.1 "New" "u1" ["zz"]
     { PlaylistID := "pi", PlaylistTitle := "New", CreatedByID := "u1" } demoStore
     { demoStore with playlists := demoStore.playlists ++
         [{ PlaylistID := "pi", PlaylistTitle := "New", CreatedByID := "u1" }] }
     { demoStore with playlists := demoStore.playlists ++
         [{ PlaylistID := "pi", PlaylistTitle := "New", CreatedByID := "u1" }] }
     notFound (by decide) (by decide)⟩

end Theorems

end Gomusic
